import Mathlib

/-!
Verification of the Rustume résumé pipeline against its specification.

The Rust sources are shallowly embedded: Rust strings become `List Char`
(so that the byte-level behaviour of `trim`, substring search and character
classification is explicit), `u8`/`u32` become `Nat`, `f32` fields (never
computed with) become `Rat`, fallible functions return `Except`, and the
`validator` derive is modelled by explicit boolean validators that follow
the `#[validate(...)]` attributes of the schema structs field by field.

External crates (serde, ammonia, scraper, typst, cuid2) are not part of the
repository; where a repository function calls into one, the call is either
modelled by a parameter (the HTML fragment parser of `scraper`, the
`ammonia` sanitiser, the serde serialiser) or by a harmless constant (the
collision-resistant id of `cuid2`, whose value no claim depends on).
-/

namespace Rustume

/-- Rust strings, embedded as lists of characters. -/
abbrev Str := List Char

/-- Model of Rust `char::is_whitespace` (and of the regex class `\s`) on the
ASCII range, which is the range exercised by every claim: space, tab,
line feed, vertical tab, form feed, carriage return. -/
def is_rust_whitespace (c : Char) : Bool :=
  c == ' ' || c == '\t' || c == '\n' || c == '\x0b' || c == '\x0c' || c == '\r'

/-- Model of Rust `str::trim_start`. -/
def rust_trim_start (s : Str) : Str :=
  s.dropWhile is_rust_whitespace

/-- Model of Rust `str::trim_end`. -/
def rust_trim_end (s : Str) : Str :=
  (s.reverse.dropWhile is_rust_whitespace).reverse

/-- Model of Rust `str::trim`. -/
def rust_trim (s : Str) : Str :=
  rust_trim_end (rust_trim_start s)

/-- Model of Rust `str::to_lowercase` on the ASCII range. -/
def to_lower_str (s : Str) : Str :=
  s.map Char.toLower

/-- Model of Rust `str::contains(pattern)` for a string pattern:
true iff `pat` occurs as a contiguous substring of `hay`. -/
def contains_sub (hay pat : Str) : Bool :=
  pat.isPrefixOf hay ||
    (match hay with
     | [] => false
     | _ :: t => contains_sub t pat)

/-- Rust `u8::min(5)` clamp used by the level setters. -/
def clamp_level (level : Nat) : Nat :=
  min level 5

/-- Rust `char::is_ascii_hexdigit`. -/
def is_ascii_hexdigit (c : Char) : Bool :=
  (('0' ≤ c) && (c ≤ '9')) || (('a' ≤ c) && (c ≤ 'f')) || (('A' ≤ c) && (c ≤ 'F'))

/-- Rust `char::is_ascii_alphabetic` (the regex class `[A-Za-z]`). -/
def is_ascii_alpha (c : Char) : Bool :=
  (('a' ≤ c) && (c ≤ 'z')) || (('A' ≤ c) && (c ≤ 'Z'))

/-- Rust `char::is_ascii_digit` (the regex class `[0-9]`). -/
def is_ascii_digit (c : Char) : Bool :=
  ('0' ≤ c) && (c ≤ '9')

/-- Decimal rendering of a `Nat`, modelling Rust's `Display` for `u32`. -/
def nat_to_str (n : Nat) : Str :=
  (Nat.repr n).data

-- ===========================================================================
-- crates/utils/src/date.rs
-- ===========================================================================

/-- `rustume_utils::date::format_date_range` (date.rs lines 5-15): trim both
ends, treat empty results as absent, then combine. -/
def format_date_range (start stop : Option Str) : Str :=
  let start := match start with
    | some s => let t := rust_trim s; if t.isEmpty then none else some t
    | none => none
  let stop := match stop with
    | some e => let t := rust_trim e; if t.isEmpty then none else some t
    | none => none
  match start, stop with
  | some s, some e => s ++ (" - ").data ++ e
  | some s, none => s ++ (" - Present").data
  | none, some e => e
  | none, none => []

-- ===========================================================================
-- crates/parser/src/linkedin.rs helper functions
-- ===========================================================================

/-- `format_linkedin_date_range` (linkedin.rs lines 708-718); the body is a
separate copy of the same logic as `format_date_range`. -/
def format_linkedin_date_range (start stop : Option Str) : Str :=
  let start_str := match start with
    | some s => let t := rust_trim s; if t.isEmpty then none else some t
    | none => none
  let end_str := match stop with
    | some e => let t := rust_trim e; if t.isEmpty then none else some t
    | none => none
  match start_str, end_str with
  | some s, some e => s ++ (" - ").data ++ e
  | some s, none => s ++ (" - Present").data
  | none, some e => e
  | none, none => []

/-- `proficiency_to_level` (linkedin.rs lines 721-734): map a LinkedIn
language proficiency string to a numeric level by case-insensitive
substring matching, defaulting to 3. -/
def proficiency_to_level (proficiency : Str) : Nat :=
  let lower := to_lower_str proficiency
  if contains_sub lower (("native").data) || contains_sub lower (("bilingual").data)
      || contains_sub lower (("full professional").data) then
    5
  else if contains_sub lower (("professional working").data)
      || contains_sub lower (("fluent").data) then
    4
  else if contains_sub lower (("limited working").data)
      || contains_sub lower (("intermediate").data) then
    3
  else if contains_sub lower (("elementary").data) || contains_sub lower (("basic").data) then
    2
  else
    3

-- ===========================================================================
-- crates/parser/src/json_resume.rs helper functions
-- ===========================================================================

/-- `fluency_to_level` (json_resume.rs lines 488-504): the v1 adapter's
fluency mapping, defaulting to 0. -/
def fluency_to_level (fluency : Str) : Nat :=
  let lower := to_lower_str fluency
  if contains_sub lower (("native").data) || contains_sub lower (("bilingual").data) then
    5
  else if contains_sub lower (("fluent").data)
      || contains_sub lower (("professional").data) then
    4
  else if contains_sub lower (("advanced").data) then
    3
  else if contains_sub lower (("intermediate").data)
      || contains_sub lower (("working").data) then
    2
  else if contains_sub lower (("elementary").data) || contains_sub lower (("basic").data)
      || contains_sub lower (("beginner").data) then
    1
  else
    0

/-- `build_summary` (json_resume.rs lines 468-485): join the optional summary
paragraph and bullet lines built from the highlights with a blank line. -/
def build_summary (summary : Option Str) (highlights : Option (List Str)) : Str :=
  let parts : List Str := []
  let parts := match summary with
    | some s => if !s.isEmpty then parts ++ [s] else parts
    | none => parts
  let parts := match highlights with
    | some h =>
        if !h.isEmpty then
          parts ++ [List.intercalate (("\n").data) (h.map (fun item => ("• ").data ++ item))]
        else parts
    | none => parts
  List.intercalate (("\n\n").data) parts

-- ===========================================================================
-- Spec-side reference definitions (written from the spec, for comparison)
-- ===========================================================================

/-- Spec §4.3.1: a date is absent when missing or whitespace-only; the spec
compares the trimmed values. -/
def trimmed_nonempty (o : Option Str) : Option Str :=
  match o with
  | none => none
  | some v => if (rust_trim v).isEmpty then none else some (rust_trim v)

/-- Spec §4.3.1 date-range table: `"<start> - <end>"` when both present,
`"<start> - Present"` when only the start is, just the end when only the
end is, empty when neither; whitespace-only counts as empty. -/
def date_range_spec (start stop : Option Str) : Str :=
  match trimmed_nonempty start, trimmed_nonempty stop with
  | some s, some e => s ++ (" - ").data ++ e
  | some s, none => s ++ (" - Present").data
  | none, some e => e
  | none, none => []

/-- Spec §4.3.3 proficiency table (social-export adapter):
`native|bilingual|full professional` → 5, `professional working|fluent` → 4,
`limited working|intermediate` → 3, `elementary|basic` → 2, else 3. -/
def linkedin_level_spec (p : Str) : Nat :=
  let lower := to_lower_str p
  if contains_sub lower (("native").data) || contains_sub lower (("bilingual").data)
      || contains_sub lower (("full professional").data) then
    5
  else if contains_sub lower (("professional working").data)
      || contains_sub lower (("fluent").data) then
    4
  else if contains_sub lower (("limited working").data)
      || contains_sub lower (("intermediate").data) then
    3
  else if contains_sub lower (("elementary").data) || contains_sub lower (("basic").data) then
    2
  else
    3

/-- Spec §4.3.1 fluency table (v1 adapter): `native|bilingual` → 5,
`fluent|professional` → 4, `advanced` → 3, `intermediate|working` → 2,
`elementary|basic|beginner` → 1, else 0. -/
def jsonresume_level_spec (p : Str) : Nat :=
  let lower := to_lower_str p
  if contains_sub lower (("native").data) || contains_sub lower (("bilingual").data) then
    5
  else if contains_sub lower (("fluent").data)
      || contains_sub lower (("professional").data) then
    4
  else if contains_sub lower (("advanced").data) then
    3
  else if contains_sub lower (("intermediate").data)
      || contains_sub lower (("working").data) then
    2
  else if contains_sub lower (("elementary").data) || contains_sub lower (("basic").data)
      || contains_sub lower (("beginner").data) then
    1
  else
    0

-- ===========================================================================
-- crates/schema: the canonical model
-- ===========================================================================

/-- Stand-in for `cuid2::create_id()`: the external cuid2 crate returns a
fresh collision-resistant short id. No claim depends on the generated
value, so it is modelled as a fixed constant. -/
def cuid2_create_id : Str :=
  ("cuid2").data

/-- `shared.rs`: URL with display label. -/
structure Url where
  label : Str
  href : Str
deriving DecidableEq

/-- `Url::default()` (derived `Default`). -/
def Url.deflt : Url :=
  { label := [], href := [] }

/-- `Url::new` (shared.rs): href only, empty label. -/
def Url.new (href : Str) : Url :=
  { label := [], href := href }

/-- `Url::with_label` (shared.rs). -/
def Url.with_label (label href : Str) : Url :=
  { label := label, href := href }

/-- `shared.rs`: custom field for the basics section. -/
structure CustomField where
  id : Str
  icon : Str
  name : Str
  value : Str
deriving DecidableEq

/-- `basics.rs`: picture display effects. -/
structure PictureEffects where
  hidden : Bool
  border : Bool
  grayscale : Bool
deriving DecidableEq

/-- `PictureEffects::default()` (derived `Default`). -/
def PictureEffects.deflt : PictureEffects :=
  { hidden := false, border := false, grayscale := false }

/-- `basics.rs`: profile picture configuration. `aspect_ratio` is an `f32`
never computed with; it is embedded as an exact rational. -/
structure Picture where
  url : Str
  size : Nat
  aspect_ratio : Rat
  border_radius : Nat
  effects : PictureEffects
deriving DecidableEq

/-- `Picture::default()` (basics.rs lines 120-130). -/
def Picture.deflt : Picture :=
  { url := [], size := 64, aspect_ratio := 1, border_radius := 0,
    effects := PictureEffects.deflt }

/-- `basics.rs`: basic personal information. -/
structure Basics where
  name : Str
  headline : Str
  email : Str
  phone : Str
  location : Str
  url : Url
  custom_fields : List CustomField
  picture : Picture
deriving DecidableEq

/-- `Basics::default()` (derived `Default`). -/
def Basics.deflt : Basics :=
  { name := [], headline := [], email := [], phone := [], location := [],
    url := Url.deflt, custom_fields := [], picture := Picture.deflt }

/-- `Basics::new` (basics.rs). -/
def Basics.new (name : Str) : Basics :=
  { Basics.deflt with name := name }

/-- `Basics::with_headline`. -/
def Basics.with_headline (b : Basics) (headline : Str) : Basics :=
  { b with headline := headline }

/-- `Basics::with_email`. -/
def Basics.with_email (b : Basics) (email : Str) : Basics :=
  { b with email := email }

/-- `Basics::with_phone`. -/
def Basics.with_phone (b : Basics) (phone : Str) : Basics :=
  { b with phone := phone }

/-- `Basics::with_location`. -/
def Basics.with_location (b : Basics) (location : Str) : Basics :=
  { b with location := location }

/-- `Basics::with_url`. -/
def Basics.with_url (b : Basics) (url : Str) : Basics :=
  { b with url := Url.new url }

/-- `sections.rs`: generic section wrapper `Section<T>`. -/
structure Section (T : Type) where
  id : Str
  name : Str
  columns : Nat
  separate_links : Bool
  visible : Bool
  items : List T
deriving DecidableEq

/-- `Section::new` (sections.rs lines 103-112). -/
def Section.new (T : Type) (id name : Str) : Section T :=
  { id := id, name := name, columns := 1, separate_links := true,
    visible := true, items := [] }

/-- `Section::default()` for `T: Default` (sections.rs lines 140-151). -/
def Section.deflt (T : Type) : Section T :=
  { id := [], name := [], columns := 1, separate_links := true,
    visible := true, items := [] }

/-- `sections.rs`: summary section (content instead of items). -/
structure SummarySection where
  id : Str
  name : Str
  columns : Nat
  separate_links : Bool
  visible : Bool
  content : Str
deriving DecidableEq

/-- `SummarySection::default()` (sections.rs lines 177-188). -/
def SummarySection.deflt : SummarySection :=
  { id := ("summary").data, name := ("Summary").data, columns := 1,
    separate_links := true, visible := true, content := [] }

/-- `SummarySection::new` (sections.rs lines 190-197). -/
def SummarySection.new (content : Str) : SummarySection :=
  { SummarySection.deflt with content := content }

/-- `sections.rs`: work experience item. -/
structure Experience where
  id : Str
  visible : Bool
  company : Str
  position : Str
  location : Str
  date : Str
  summary : Str
  url : Url
deriving DecidableEq

/-- `Experience::default()` (sections.rs lines 230-243). -/
def Experience.deflt : Experience :=
  { id := [], visible := true, company := [], position := [], location := [],
    date := [], summary := [], url := Url.deflt }

/-- `Experience::new`. -/
def Experience.new (company position : Str) : Experience :=
  { Experience.deflt with
    id := cuid2_create_id, visible := true,
    company := company, position := position }

/-- `Experience::with_location`. -/
def Experience.with_location (e : Experience) (location : Str) : Experience :=
  { e with location := location }

/-- `Experience::with_date`. -/
def Experience.with_date (e : Experience) (date : Str) : Experience :=
  { e with date := date }

/-- `Experience::with_summary`. -/
def Experience.with_summary (e : Experience) (summary : Str) : Experience :=
  { e with summary := summary }

/-- `Experience::with_url`: note this builds `Url::new(url)`, whose label is
empty. -/
def Experience.with_url (e : Experience) (url : Str) : Experience :=
  { e with url := Url.new url }

/-- `sections.rs`: education item. -/
structure Education where
  id : Str
  visible : Bool
  institution : Str
  area : Str
  study_type : Str
  date : Str
  score : Str
  summary : Str
  url : Url
deriving DecidableEq

/-- `Education::default()`. -/
def Education.deflt : Education :=
  { id := [], visible := true, institution := [], area := [], study_type := [],
    date := [], score := [], summary := [], url := Url.deflt }

/-- `Education::new`. -/
def Education.new (institution area : Str) : Education :=
  { Education.deflt with
    id := cuid2_create_id, visible := true,
    institution := institution, area := area }

/-- `Education::with_study_type`. -/
def Education.with_study_type (e : Education) (study_type : Str) : Education :=
  { e with study_type := study_type }

/-- `Education::with_date`. -/
def Education.with_date (e : Education) (date : Str) : Education :=
  { e with date := date }

/-- `Education::with_score`. -/
def Education.with_score (e : Education) (score : Str) : Education :=
  { e with score := score }

/-- `Education::with_summary`. -/
def Education.with_summary (e : Education) (summary : Str) : Education :=
  { e with summary := summary }

/-- `sections.rs`: skill item; `level` is a `u8` constrained to `[0, 5]`. -/
structure Skill where
  id : Str
  visible : Bool
  name : Str
  description : Str
  level : Nat
  keywords : List Str
deriving DecidableEq

/-- `Skill::default()` (sections.rs lines 376-387): default level 1. -/
def Skill.deflt : Skill :=
  { id := [], visible := true, name := [], description := [], level := 1,
    keywords := [] }

/-- `Skill::new`. -/
def Skill.new (name : Str) : Skill :=
  { Skill.deflt with id := cuid2_create_id, visible := true, name := name }

/-- `Skill::with_level` (sections.rs lines 401-404): clamps with
`level.min(5)`; the `u8` argument is non-negative by type. -/
def Skill.with_level (s : Skill) (level : Nat) : Skill :=
  { s with level := clamp_level level }

/-- `Skill::with_keywords`. -/
def Skill.with_keywords (s : Skill) (keywords : List Str) : Skill :=
  { s with keywords := keywords }

/-- `Skill::with_description`. -/
def Skill.with_description (s : Skill) (description : Str) : Skill :=
  { s with description := description }

/-- `sections.rs`: project item. -/
structure Project where
  id : Str
  visible : Bool
  name : Str
  description : Str
  date : Str
  summary : Str
  keywords : List Str
  url : Url
deriving DecidableEq

/-- `Project::default()`. -/
def Project.deflt : Project :=
  { id := [], visible := true, name := [], description := [], date := [],
    summary := [], keywords := [], url := Url.deflt }

/-- `Project::new`. -/
def Project.new (name : Str) : Project :=
  { Project.deflt with id := cuid2_create_id, visible := true, name := name }

/-- `Project::with_description`. -/
def Project.with_description (p : Project) (description : Str) : Project :=
  { p with description := description }

/-- `Project::with_date`. -/
def Project.with_date (p : Project) (date : Str) : Project :=
  { p with date := date }

/-- `Project::with_summary`. -/
def Project.with_summary (p : Project) (summary : Str) : Project :=
  { p with summary := summary }

/-- `Project::with_url`. -/
def Project.with_url (p : Project) (url : Str) : Project :=
  { p with url := Url.new url }

/-- `Project::with_keywords`. -/
def Project.with_keywords (p : Project) (keywords : List Str) : Project :=
  { p with keywords := keywords }

/-- `sections.rs`: social/professional profile item. -/
structure Profile where
  id : Str
  visible : Bool
  network : Str
  username : Str
  icon : Str
  url : Url
deriving DecidableEq

/-- `Profile::default()`. -/
def Profile.deflt : Profile :=
  { id := [], visible := true, network := [], username := [], icon := [],
    url := Url.deflt }

/-- `Profile::new` (sections.rs lines 528-539): the icon defaults to the
lowercased network name. -/
def Profile.new (network username : Str) : Profile :=
  { id := cuid2_create_id, visible := true, network := network,
    username := username, icon := to_lower_str network, url := Url.deflt }

/-- `Profile::with_url`. -/
def Profile.with_url (p : Profile) (url : Str) : Profile :=
  { p with url := Url.new url }

/-- `Profile::with_icon`. -/
def Profile.with_icon (p : Profile) (icon : Str) : Profile :=
  { p with icon := icon }

/-- `sections.rs`: award item. -/
structure Award where
  id : Str
  visible : Bool
  title : Str
  awarder : Str
  date : Str
  summary : Str
  url : Url
deriving DecidableEq

/-- `Award::default()`. -/
def Award.deflt : Award :=
  { id := [], visible := true, title := [], awarder := [], date := [],
    summary := [], url := Url.deflt }

/-- `Award::new`. -/
def Award.new (title : Str) : Award :=
  { Award.deflt with id := cuid2_create_id, visible := true, title := title }

/-- `Award::with_awarder`. -/
def Award.with_awarder (a : Award) (awarder : Str) : Award :=
  { a with awarder := awarder }

/-- `Award::with_date`. -/
def Award.with_date (a : Award) (date : Str) : Award :=
  { a with date := date }

/-- `Award::with_summary`. -/
def Award.with_summary (a : Award) (summary : Str) : Award :=
  { a with summary := summary }

/-- `Award::with_url`. -/
def Award.with_url (a : Award) (url : Str) : Award :=
  { a with url := Url.new url }

/-- `sections.rs`: certification item. -/
structure Certification where
  id : Str
  visible : Bool
  name : Str
  issuer : Str
  date : Str
  summary : Str
  url : Url
deriving DecidableEq

/-- `Certification::default()`. -/
def Certification.deflt : Certification :=
  { id := [], visible := true, name := [], issuer := [], date := [],
    summary := [], url := Url.deflt }

/-- `Certification::new`. -/
def Certification.new (name issuer : Str) : Certification :=
  { Certification.deflt with
    id := cuid2_create_id, visible := true,
    name := name, issuer := issuer }

/-- `Certification::with_date`. -/
def Certification.with_date (c : Certification) (date : Str) : Certification :=
  { c with date := date }

/-- `Certification::with_url`. -/
def Certification.with_url (c : Certification) (url : Str) : Certification :=
  { c with url := Url.new url }

/-- `Certification::with_summary`. -/
def Certification.with_summary (c : Certification) (summary : Str) : Certification :=
  { c with summary := summary }

/-- `sections.rs`: publication item. -/
structure Publication where
  id : Str
  visible : Bool
  name : Str
  publisher : Str
  date : Str
  summary : Str
  url : Url
deriving DecidableEq

/-- `Publication::default()`. -/
def Publication.deflt : Publication :=
  { id := [], visible := true, name := [], publisher := [], date := [],
    summary := [], url := Url.deflt }

/-- `Publication::new`. -/
def Publication.new (name : Str) : Publication :=
  { Publication.deflt with id := cuid2_create_id, visible := true, name := name }

/-- `sections.rs`: language item; `level` is a `u8` constrained to `[0, 5]`. -/
structure Language where
  id : Str
  visible : Bool
  name : Str
  description : Str
  level : Nat
deriving DecidableEq

/-- `Language::default()`: default level 1. -/
def Language.deflt : Language :=
  { id := [], visible := true, name := [], description := [], level := 1 }

/-- `Language::new`. -/
def Language.new (name : Str) : Language :=
  { Language.deflt with id := cuid2_create_id, visible := true, name := name }

/-- `Language::with_level` (sections.rs lines 770-774): clamps with
`level.min(5)`. -/
def Language.with_level (l : Language) (level : Nat) : Language :=
  { l with level := clamp_level level }

/-- `Language::with_description`. -/
def Language.with_description (l : Language) (description : Str) : Language :=
  { l with description := description }

/-- `sections.rs`: interest item. -/
structure Interest where
  id : Str
  visible : Bool
  name : Str
  keywords : List Str
deriving DecidableEq

/-- `Interest::default()`. -/
def Interest.deflt : Interest :=
  { id := [], visible := true, name := [], keywords := [] }

/-- `Interest::new`. -/
def Interest.new (name : Str) : Interest :=
  { id := cuid2_create_id, visible := true, name := name, keywords := [] }

/-- `Interest::with_keywords`. -/
def Interest.with_keywords (i : Interest) (keywords : List Str) : Interest :=
  { i with keywords := keywords }

/-- `sections.rs`: volunteer item. -/
structure Volunteer where
  id : Str
  visible : Bool
  organization : Str
  position : Str
  location : Str
  date : Str
  summary : Str
  url : Url
deriving DecidableEq

/-- `Volunteer::default()`. -/
def Volunteer.deflt : Volunteer :=
  { id := [], visible := true, organization := [], position := [],
    location := [], date := [], summary := [], url := Url.deflt }

/-- `Volunteer::new`. -/
def Volunteer.new (organization position : Str) : Volunteer :=
  { Volunteer.deflt with
    id := cuid2_create_id, visible := true,
    organization := organization, position := position }

/-- `sections.rs`: reference item. -/
structure Reference where
  id : Str
  visible : Bool
  name : Str
  description : Str
  summary : Str
  url : Url
deriving DecidableEq

/-- `Reference::default()`. -/
def Reference.deflt : Reference :=
  { id := [], visible := true, name := [], description := [], summary := [],
    url := Url.deflt }

/-- `Reference::new`. -/
def Reference.new (name : Str) : Reference :=
  { Reference.deflt with id := cuid2_create_id, visible := true, name := name }

/-- `sections.rs`: custom section item. -/
structure CustomItem where
  id : Str
  visible : Bool
  name : Str
  description : Str
  date : Str
  location : Str
  summary : Str
  keywords : List Str
  url : Url
deriving DecidableEq

/-- `CustomItem::default()`. -/
def CustomItem.deflt : CustomItem :=
  { id := [], visible := true, name := [], description := [], date := [],
    location := [], summary := [], keywords := [], url := Url.deflt }

/-- `CustomItem::new`. -/
def CustomItem.new (name : Str) : CustomItem :=
  { CustomItem.deflt with id := cuid2_create_id, visible := true, name := name }

/-- `sections.rs`: all resume sections. The Rust `custom` field is a
`HashMap<String, Section<CustomItem>>`; it is embedded as an association
list (iteration order is not observable by any claim). -/
structure Sections where
  summary : SummarySection
  experience : Section Experience
  education : Section Education
  skills : Section Skill
  projects : Section Project
  profiles : Section Profile
  awards : Section Award
  certifications : Section Certification
  publications : Section Publication
  languages : Section Language
  interests : Section Interest
  volunteer : Section Volunteer
  references : Section Reference
  custom : List (Str × Section CustomItem)
deriving DecidableEq

/-- `Sections::default()` (derived `Default`). -/
def Sections.deflt : Sections :=
  { summary := SummarySection.deflt,
    experience := Section.deflt Experience,
    education := Section.deflt Education,
    skills := Section.deflt Skill,
    projects := Section.deflt Project,
    profiles := Section.deflt Profile,
    awards := Section.deflt Award,
    certifications := Section.deflt Certification,
    publications := Section.deflt Publication,
    languages := Section.deflt Language,
    interests := Section.deflt Interest,
    volunteer := Section.deflt Volunteer,
    references := Section.deflt Reference,
    custom := [] }

/-- `metadata.rs`: custom CSS configuration. -/
structure CustomCss where
  value : Str
  visible : Bool
deriving DecidableEq

/-- `CustomCss::default()`. -/
def CustomCss.deflt : CustomCss :=
  { value := [], visible := false }

/-- `metadata.rs`: page format. -/
inductive PageFormat where
  | A4
  | Letter
deriving DecidableEq

/-- `metadata.rs`: page display options. -/
structure PageOptions where
  break_line : Bool
  page_numbers : Bool
deriving DecidableEq

/-- `PageOptions::default()`. -/
def PageOptions.deflt : PageOptions :=
  { break_line := true, page_numbers := true }

/-- `metadata.rs`: page configuration; `margin` is a `u32`. -/
structure PageConfig where
  margin : Nat
  format : PageFormat
  options : PageOptions
deriving DecidableEq

/-- `PageConfig::default()`: margin 18, A4. -/
def PageConfig.deflt : PageConfig :=
  { margin := 18, format := PageFormat.A4, options := PageOptions.deflt }

/-- `metadata.rs`: colour theme. -/
structure Theme where
  background : Str
  text : Str
  primary : Str
deriving DecidableEq

/-- `Theme::default()`. -/
def Theme.deflt : Theme :=
  { background := ("#ffffff").data, text := ("#000000").data,
    primary := ("#dc2626").data }

/-- `metadata.rs`: font configuration; `size` is a `u32`. -/
structure FontConfig where
  family : Str
  subset : Str
  variants : List Str
  size : Nat
deriving DecidableEq

/-- `FontConfig::default()`: IBM Plex Serif, latin, regular, 14. -/
def FontConfig.deflt : FontConfig :=
  { family := ("IBM Plex Serif").data, subset := ("latin").data,
    variants := [("regular").data], size := 14 }

/-- `metadata.rs`: typography configuration; `line_height` is an `f32`
never computed with, embedded as an exact rational. -/
structure Typography where
  font : FontConfig
  line_height : Rat
  hide_icons : Bool
  underline_links : Bool
deriving DecidableEq

/-- `Typography::default()`. -/
def Typography.deflt : Typography :=
  { font := FontConfig.deflt, line_height := 3 / 2, hide_icons := false,
    underline_links := true }

/-- `metadata.rs`: resume metadata. -/
structure Metadata where
  template : Str
  layout : List (List (List Str))
  css : CustomCss
  page : PageConfig
  theme : Theme
  typography : Typography
  notes : Str
deriving DecidableEq

/-- `default_layout()` (metadata.rs lines 242-262). -/
def default_layout : List (List (List Str)) :=
  [[[("profiles").data, ("summary").data, ("experience").data,
     ("education").data, ("projects").data, ("volunteer").data,
     ("references").data],
    [("skills").data, ("interests").data, ("certifications").data,
     ("awards").data, ("publications").data, ("languages").data]]]

/-- `Metadata::default()` (metadata.rs lines 37-49). -/
def Metadata.deflt : Metadata :=
  { template := ("rhyhorn").data, layout := default_layout,
    css := CustomCss.deflt, page := PageConfig.deflt, theme := Theme.deflt,
    typography := Typography.deflt, notes := [] }

/-- `lib.rs`: root resume data structure. -/
structure ResumeData where
  basics : Basics
  sections : Sections
  metadata : Metadata
deriving DecidableEq

/-- `ResumeData::default()` (derived `Default`). -/
def ResumeData.deflt : ResumeData :=
  { basics := Basics.deflt, sections := Sections.deflt,
    metadata := Metadata.deflt }

-- ===========================================================================
-- crates/schema/src/validation.rs
-- ===========================================================================

/-- Model of `URL_REGEX` = `^https?://[^\s]+$` (validation.rs line 8): the
whole string is `http://` or `https://` followed by one or more
non-whitespace characters. -/
def url_regex_matches (s : Str) : Bool :=
  ((("http://").data).isPrefixOf s && (s.drop 7).length ≥ 1
      && (s.drop 7).all (fun c => !is_rust_whitespace c))
  || ((("https://").data).isPrefixOf s && (s.drop 8).length ≥ 1
      && (s.drop 8).all (fun c => !is_rust_whitespace c))

/-- Character class `[a-zA-Z0-9._%+-]` of `EMAIL_REGEX`. -/
def email_local_char (c : Char) : Bool :=
  is_ascii_alpha c || is_ascii_digit c || c == '.' || c == '_' || c == '%'
    || c == '+' || c == '-'

/-- Character class `[a-zA-Z0-9.-]` of `EMAIL_REGEX`. -/
def email_domain_char (c : Char) : Bool :=
  is_ascii_alpha c || is_ascii_digit c || c == '.' || c == '-'

/-- Model of `EMAIL_REGEX` = `^[a-zA-Z0-9._%+-]+@[a-zA-Z0-9.-]+\.[a-zA-Z]{2,}$`
(validation.rs lines 10-12). Neither class contains `@`, so the matched
`@` is the first one; the top-level-domain class contains no dot, so the
matched dot is the last one. The model splits accordingly. -/
def email_regex_matches (s : Str) : Bool :=
  let localPart := s.takeWhile (fun c => !(c == '@'))
  let rest := s.dropWhile (fun c => !(c == '@'))
  match rest with
  | [] => false
  | _ :: domain =>
      let revDomain := domain.reverse
      let revTld := revDomain.takeWhile (fun c => !(c == '.'))
      match revDomain.dropWhile (fun c => !(c == '.')) with
      | [] => false
      | _ :: revBody =>
          !localPart.isEmpty && localPart.all email_local_char
            && !revBody.isEmpty && revBody.all email_domain_char
            && revTld.length ≥ 2 && revTld.all is_ascii_alpha

/-- `validate_optional_url` (validation.rs lines 15-27): empty or URL regex. -/
def validate_optional_url (url : Str) : Except Str Unit :=
  if url.isEmpty then Except.ok ()
  else if url_regex_matches url then Except.ok ()
  else Except.error (("Must be a valid HTTP(S) URL").data)

/-- `validate_optional_email` (validation.rs lines 30-42). -/
def validate_optional_email (email : Str) : Except Str Unit :=
  if email.isEmpty then Except.ok ()
  else if email_regex_matches email then Except.ok ()
  else Except.error (("Must be a valid email address").data)

/-- `validate_hex_color` (validation.rs lines 45-58): empty is accepted;
otherwise the code strips leading `'#'` characters with
`trim_start_matches('#')` and requires exactly six ASCII hex digits. -/
def validate_hex_color (color : Str) : Except Str Unit :=
  if color.isEmpty then Except.ok ()
  else
    let color := color.dropWhile (fun c => c == '#')
    if color.length == 6 && color.all is_ascii_hexdigit then Except.ok ()
    else Except.error (("Must be a valid hex color (#RRGGBB)").data)

/-- Rust `Result::is_ok`. -/
def okB (r : Except Str Unit) : Bool :=
  match r with
  | Except.ok _ => true
  | Except.error _ => false

-- ===========================================================================
-- The derive(Validate) impls: one boolean validator per schema struct,
-- following the #[validate(...)] attributes field by field. Fields without
-- an attribute are not validated; #[validate(nested)] recurses;
-- #[validate(range(...))] checks the bounds; #[validate(custom(...))] calls
-- the custom function. List fields validate every element.
-- ===========================================================================

/-- `Url`: `href` is checked by `validate_optional_url`; `label` is free. -/
def Url.validate_ok (u : Url) : Bool :=
  okB (validate_optional_url u.href)

/-- `PictureEffects` has no validated fields. -/
def PictureEffects.validate_ok (_ : PictureEffects) : Bool :=
  true

/-- `Picture`: only the nested `effects` (which has no rules). -/
def Picture.validate_ok (p : Picture) : Bool :=
  p.effects.validate_ok

/-- `Basics`: custom email rule, nested `url` and `picture`. -/
def Basics.validate_ok (b : Basics) : Bool :=
  okB (validate_optional_email b.email) && b.url.validate_ok
    && b.picture.validate_ok

/-- `Section<T>`: `columns` in `[1, 5]` and every nested item valid. -/
def Section.validate_ok {T : Type} (item_ok : T → Bool) (s : Section T) : Bool :=
  (1 ≤ s.columns && s.columns ≤ 5) && s.items.all item_ok

/-- `SummarySection`: `columns` in `[1, 5]`. -/
def SummarySection.validate_ok (s : SummarySection) : Bool :=
  1 ≤ s.columns && s.columns ≤ 5

/-- `Experience`: nested `url`. -/
def Experience.validate_ok (e : Experience) : Bool :=
  e.url.validate_ok

/-- `Education`: nested `url`. -/
def Education.validate_ok (e : Education) : Bool :=
  e.url.validate_ok

/-- `Skill`: `level` in `[0, 5]` (the lower bound is vacuous for `u8`). -/
def Skill.validate_ok (s : Skill) : Bool :=
  s.level ≤ 5

/-- `Project`: nested `url`. -/
def Project.validate_ok (p : Project) : Bool :=
  p.url.validate_ok

/-- `Profile`: nested `url`. -/
def Profile.validate_ok (p : Profile) : Bool :=
  p.url.validate_ok

/-- `Award`: nested `url`. -/
def Award.validate_ok (a : Award) : Bool :=
  a.url.validate_ok

/-- `Certification`: nested `url`. -/
def Certification.validate_ok (c : Certification) : Bool :=
  c.url.validate_ok

/-- `Publication`: nested `url`. -/
def Publication.validate_ok (p : Publication) : Bool :=
  p.url.validate_ok

/-- `Language`: `level` in `[0, 5]`. -/
def Language.validate_ok (l : Language) : Bool :=
  l.level ≤ 5

/-- `Interest` has no validated fields. -/
def Interest.validate_ok (_ : Interest) : Bool :=
  true

/-- `Volunteer`: nested `url`. -/
def Volunteer.validate_ok (v : Volunteer) : Bool :=
  v.url.validate_ok

/-- `Reference`: nested `url`. -/
def Reference.validate_ok (r : Reference) : Bool :=
  r.url.validate_ok

/-- `CustomItem`: nested `url`. -/
def CustomItem.validate_ok (c : CustomItem) : Bool :=
  c.url.validate_ok

/-- `Sections`: every field is `#[validate(nested)]`, including the values
of the `custom` map. -/
def Sections.validate_ok (s : Sections) : Bool :=
  s.summary.validate_ok
    && s.experience.validate_ok Experience.validate_ok
    && s.education.validate_ok Education.validate_ok
    && s.skills.validate_ok Skill.validate_ok
    && s.projects.validate_ok Project.validate_ok
    && s.profiles.validate_ok Profile.validate_ok
    && s.awards.validate_ok Award.validate_ok
    && s.certifications.validate_ok Certification.validate_ok
    && s.publications.validate_ok Publication.validate_ok
    && s.languages.validate_ok Language.validate_ok
    && s.interests.validate_ok Interest.validate_ok
    && s.volunteer.validate_ok Volunteer.validate_ok
    && s.references.validate_ok Reference.validate_ok
    && s.custom.all (fun kv => (kv.2).validate_ok CustomItem.validate_ok)

/-- `CustomCss` has no validated fields. -/
def CustomCss.validate_ok (_ : CustomCss) : Bool :=
  true

/-- `PageOptions` has no validated fields. -/
def PageOptions.validate_ok (_ : PageOptions) : Bool :=
  true

/-- `PageConfig`: only the nested `options`; note `margin` carries no
validation attribute (the renderer enforces its bound). -/
def PageConfig.validate_ok (p : PageConfig) : Bool :=
  p.options.validate_ok

/-- `Theme`: the three colours go through `validate_hex_color`. -/
def Theme.validate_ok (t : Theme) : Bool :=
  okB (validate_hex_color t.background) && okB (validate_hex_color t.text)
    && okB (validate_hex_color t.primary)

/-- `FontConfig` has no validated fields (the renderer enforces the size). -/
def FontConfig.validate_ok (_ : FontConfig) : Bool :=
  true

/-- `Typography`: only the nested `font`. -/
def Typography.validate_ok (t : Typography) : Bool :=
  t.font.validate_ok

/-- `Metadata`: nested `css`, `page`, `theme`, `typography`. -/
def Metadata.validate_ok (m : Metadata) : Bool :=
  m.css.validate_ok && m.page.validate_ok && m.theme.validate_ok
    && m.typography.validate_ok

/-- `ResumeData`: the canonical validator, nested over the three regions.
`true` exactly when the Rust `resume.validate()` returns `Ok`. -/
def ResumeData.validate_ok (r : ResumeData) : Bool :=
  r.basics.validate_ok && r.sections.validate_ok && r.metadata.validate_ok

-- ===========================================================================
-- Spec-side hex-colour predicates (for claim C6)
-- ===========================================================================

/-- The claim's regular expression `^#?[0-9A-Fa-f]{6}$`: exactly six hex
digits preceded by at most one `'#'`. -/
def matches_hex_regex (s : Str) : Bool :=
  (s.length == 6 && s.all is_ascii_hexdigit)
  || (match s with
      | '#' :: rest => rest.length == 6 && rest.all is_ascii_hexdigit
      | _ => false)

/-- The relaxed shape the code actually accepts for non-empty input: any
number (zero or more) of leading `'#'` characters followed by exactly six
hex digits. -/
def matches_hex_relaxed : Str → Bool
  | [] => false
  | c :: rest =>
      if c == '#' then matches_hex_relaxed rest
      else (c :: rest).length == 6 && (c :: rest).all is_ascii_hexdigit

-- ===========================================================================
-- crates/utils/src/html_to_typst.rs
-- ===========================================================================

/-- The expansion of one character under `escape_typst` (html_to_typst.rs
lines 45-66). The backtick character is written via its code point 96
throughout this file. -/
def escape_typst_char (c : Char) : Str :=
  if c == '\\' then ("\\\\").data
  else if c == '#' then ("\\#").data
  else if c == '[' then ("\\[").data
  else if c == ']' then ("\\]").data
  else if c == '$' then ("\\$").data
  else if c == '@' then ("\\@").data
  else if c == '*' then ("\\*").data
  else if c == '_' then ("\\_").data
  else if c.toNat == 96 then ("\\`").data
  else if c == '%' then ("\\%").data
  else if c == '~' then ("\\~").data
  else if c == '<' then ("\\<").data
  else if c == '>' then ("\\>").data
  else [c]

/-- `escape_typst` (html_to_typst.rs lines 45-66): escape every character
that is special in Typst content mode. -/
def escape_typst : Str → Str
  | [] => []
  | c :: rest => escape_typst_char c ++ escape_typst rest

/-- True on the thirteen characters `escape_typst` expands. -/
def typst_special_char (c : Char) : Bool :=
  c == '\\' || c == '#' || c == '[' || c == ']' || c == '$' || c == '@'
    || c == '*' || c == '_' || c.toNat == 96 || c == '%' || c == '~'
    || c == '<' || c == '>'

/-- Model of Rust `str::replace(pat, rep)` for a non-empty pattern headed by
`p`: replace non-overlapping occurrences left to right. The `Nat` fuel
makes the recursion structural; every step consumes at least one input
character, so fuel equal to the input length never runs out. -/
def replace_go (p : Char) (ps rep : Str) : Nat → Str → Str
  | _, [] => []
  | 0, s => s
  | Nat.succ n, c :: rest =>
      if (p :: ps).isPrefixOf (c :: rest) then
        rep ++ replace_go p ps rep n (rest.drop ps.length)
      else
        c :: replace_go p ps rep n rest

/-- Model of Rust `str::replace`; only ever invoked with a non-empty
pattern in this development (the empty-pattern case returns the input). -/
def replace_all (s pat rep : Str) : Str :=
  match pat with
  | [] => s
  | p :: ps => replace_go p ps rep s.length s

/-- A node of the DOM produced by scraper's `Html::parse_fragment`: a text
node, an element with tag name, attributes and children, or any other
node kind (comment, doctype, processing instruction), which
`process_node` skips. -/
inductive HNode where
  | text (s : Str)
  | elem (tag : Str) (attrs : List (Str × Str)) (children : List HNode)
  | other

/-- Model of `ego_tree` element attribute lookup `el.attr(name)`. -/
def attr_value (attrs : List (Str × Str)) (name : Str) : Option Str :=
  (attrs.find? (fun p => p.1 == name)).map Prod.snd

mutual

/-- `process_node` (html_to_typst.rs lines 69-203): translate one DOM node
to Typst markup. The `ul` and `ol` branches differ only in the bullet
marker and share `process_list_items` below. -/
def process_node (n : HNode) (in_list : Bool) : Str :=
  match n with
  | HNode.text t =>
      if in_list && t.all is_rust_whitespace then []
      else escape_typst t
  | HNode.elem tag attrs children =>
      if tag == ("p").data then
        let inner := process_nodes children false
        let trimmed := rust_trim inner
        if !trimmed.isEmpty && !(trimmed == ("#linebreak()").data) then
          trimmed ++ ("\n\n").data
        else []
      else if tag == ("strong").data || tag == ("b").data then
        let inner := process_nodes children in_list
        if !inner.isEmpty then
          ("#text(weight: \"bold\")[").data ++ inner ++ [']']
        else []
      else if tag == ("em").data || tag == ("i").data then
        let inner := process_nodes children in_list
        if !inner.isEmpty then ("#emph[").data ++ inner ++ [']'] else []
      else if tag == ("u").data then
        let inner := process_nodes children in_list
        if !inner.isEmpty then ("#underline[").data ++ inner ++ [']'] else []
      else if tag == ("a").data then
        let href := (attr_value attrs (("href").data)).getD []
        let inner := process_nodes children in_list
        if !inner.isEmpty then
          ("#link(\"").data
            ++ replace_all (replace_all href (("\\").data) (("\\\\").data))
                 (("\"").data) (("\\\"").data)
            ++ ("\")[").data ++ inner ++ [']']
        else []
      else if tag == ("ul").data then
        let pr := process_list_items children '-'
        if pr.2 then pr.1 ++ [Char.ofNat 10] else pr.1
      else if tag == ("ol").data then
        let pr := process_list_items children '+'
        if pr.2 then pr.1 ++ [Char.ofNat 10] else pr.1
      else if tag == ("br").data then
        ("#linebreak()\n").data
      else
        process_nodes children in_list
  | HNode.other => []

/-- The loop `for child in document.root_element().children()` and the
child-processing loops inside `process_node`. -/
def process_nodes (ns : List HNode) (in_list : Bool) : Str :=
  match ns with
  | [] => []
  | n :: rest => process_node n in_list ++ process_nodes rest in_list

/-- The shared body of the `ul`/`ol` branches: emit one `<marker> item` line
per non-empty `li` child, skipping everything else; the boolean is the
`emitted_any` flag. -/
def process_list_items (ns : List HNode) (marker : Char) : Str × Bool :=
  match ns with
  | [] => ([], false)
  | HNode.elem tag _ li_children :: rest =>
      let pr := process_list_items rest marker
      if tag == ("li").data then
        let inner := rust_trim (process_nodes li_children true)
        if !inner.isEmpty then
          (marker :: ' ' :: inner ++ [Char.ofNat 10] ++ pr.1, true)
        else pr
      else pr
  | _ :: rest => process_list_items rest marker

end

/-- `clean_output`'s collapse loop (html_to_typst.rs lines 206-211), with
explicit fuel: every replacement pass shortens the string, so `s.length`
iterations always reach the loop's fixpoint. -/
def collapse_blank_lines : Nat → Str → Str
  | 0, s => s
  | Nat.succ n, s =>
      if contains_sub s (("\n\n\n").data) then
        collapse_blank_lines n (replace_all s (("\n\n\n").data) (("\n\n").data))
      else s

/-- `clean_output` (html_to_typst.rs lines 206-212): collapse runs of three
or more newlines to two, then trim. -/
def clean_output (s : Str) : Str :=
  rust_trim (collapse_blank_lines s.length s)

/-- `html_to_typst` (html_to_typst.rs lines 22-42). The scraper crate's
`Html::parse_fragment` is external; it is passed in as `parse`, standing
for the children of the parsed fragment's root element. Inputs without
any `'<'` never reach the parser. -/
def html_to_typst (parse : Str → List HNode) (html : Str) : Str :=
  let trimmed := rust_trim html
  if trimmed.isEmpty then []
  else if !(trimmed.any (fun c => c == '<')) then escape_typst trimmed
  else clean_output (process_nodes (parse trimmed) false)

-- ===========================================================================
-- crates/render/src/typst_engine/engine.rs
-- ===========================================================================

/-- `RenderError` (render/src/traits.rs): the renderer's two error kinds
used by `generate_source`. -/
inductive RenderError where
  | InvalidConfig (msg : Str)
  | RenderFailed (msg : Str)
deriving DecidableEq

/-- The `TEMPLATES` catalogue (engine.rs lines 10-23). -/
def TEMPLATES : List Str :=
  [("rhyhorn").data, ("azurill").data, ("pikachu").data, ("nosepass").data,
   ("bronzor").data, ("chikorita").data, ("ditto").data, ("gengar").data,
   ("glalie").data, ("kakuna").data, ("leafish").data, ("onyx").data]

/-- `convert_field` (engine.rs lines 26-31): empty in, empty out; otherwise
sanitise (external `ammonia`, passed as `sanitize`) then transcode. -/
def convert_field (sanitize : Str → Str) (parse : Str → List HNode)
    (html : Str) : Str :=
  if html.isEmpty then []
  else html_to_typst parse (sanitize html)

/-- `preprocess_rich_text` (engine.rs lines 35-102): clone the document and
run `convert_field` on every rich-text field — the summary section's
content and the summary/description fields of the items of every section,
custom sections included. -/
def preprocess_rich_text (sanitize : Str → Str) (parse : Str → List HNode)
    (resume : ResumeData) : ResumeData :=
  let cf := convert_field sanitize parse
  { resume with sections :=
    { resume.sections with
      summary := { resume.sections.summary with
        content := cf resume.sections.summary.content },
      experience := { resume.sections.experience with
        items := resume.sections.experience.items.map
          (fun item => { item with summary := cf item.summary }) },
      education := { resume.sections.education with
        items := resume.sections.education.items.map
          (fun item => { item with summary := cf item.summary }) },
      skills := { resume.sections.skills with
        items := resume.sections.skills.items.map
          (fun item => { item with description := cf item.description }) },
      projects := { resume.sections.projects with
        items := resume.sections.projects.items.map
          (fun item => { item with summary := cf item.summary,
                                   description := cf item.description }) },
      awards := { resume.sections.awards with
        items := resume.sections.awards.items.map
          (fun item => { item with summary := cf item.summary }) },
      certifications := { resume.sections.certifications with
        items := resume.sections.certifications.items.map
          (fun item => { item with summary := cf item.summary }) },
      publications := { resume.sections.publications with
        items := resume.sections.publications.items.map
          (fun item => { item with summary := cf item.summary }) },
      languages := { resume.sections.languages with
        items := resume.sections.languages.items.map
          (fun item => { item with description := cf item.description }) },
      volunteer := { resume.sections.volunteer with
        items := resume.sections.volunteer.items.map
          (fun item => { item with summary := cf item.summary }) },
      references := { resume.sections.references with
        items := resume.sections.references.items.map
          (fun item => { item with summary := cf item.summary,
                                   description := cf item.description }) },
      custom := resume.sections.custom.map
        (fun kv => (kv.1, { kv.2 with
          items := (kv.2).items.map
            (fun item => { item with summary := cf item.summary,
                                     description := cf item.description }) })) } }

/-- Erase exactly the rich-text fields `preprocess_rich_text` rewrites
(setting each to the empty string). Two documents agree on every other
field if and only if their erasures are equal; used to state the frame
property of the preprocessing pass. -/
def scrub_rich_text (resume : ResumeData) : ResumeData :=
  { resume with sections :=
    { resume.sections with
      summary := { resume.sections.summary with content := [] },
      experience := { resume.sections.experience with
        items := resume.sections.experience.items.map
          (fun item => { item with summary := [] }) },
      education := { resume.sections.education with
        items := resume.sections.education.items.map
          (fun item => { item with summary := [] }) },
      skills := { resume.sections.skills with
        items := resume.sections.skills.items.map
          (fun item => { item with description := [] }) },
      projects := { resume.sections.projects with
        items := resume.sections.projects.items.map
          (fun item => { item with summary := [], description := [] }) },
      awards := { resume.sections.awards with
        items := resume.sections.awards.items.map
          (fun item => { item with summary := [] }) },
      certifications := { resume.sections.certifications with
        items := resume.sections.certifications.items.map
          (fun item => { item with summary := [] }) },
      publications := { resume.sections.publications with
        items := resume.sections.publications.items.map
          (fun item => { item with summary := [] }) },
      languages := { resume.sections.languages with
        items := resume.sections.languages.items.map
          (fun item => { item with description := [] }) },
      volunteer := { resume.sections.volunteer with
        items := resume.sections.volunteer.items.map
          (fun item => { item with summary := [] }) },
      references := { resume.sections.references with
        items := resume.sections.references.items.map
          (fun item => { item with summary := [], description := [] }) },
      custom := resume.sections.custom.map
        (fun kv => (kv.1, { kv.2 with
          items := (kv.2).items.map
            (fun item => { item with summary := [], description := [] }) })) } }

/-- The margin error message of `generate_source` (engine.rs lines 132-137):
`"Margin {margin}pt exceeds maximum of 100pt"`. -/
def margin_error_msg (margin : Nat) : Str :=
  ("Margin ").data ++ nat_to_str margin ++ ("pt exceeds maximum of 100pt").data

/-- The font-size error message of `generate_source` (engine.rs lines
138-144): `"Font size {size}pt is outside the allowed range of 6–72pt"`. -/
def font_size_error_msg (size : Nat) : Str :=
  ("Font size ").data ++ nat_to_str size
    ++ ("pt is outside the allowed range of 6–72pt").data

/-- The page-size directive value (engine.rs lines 201-204). -/
def paper_name (f : PageFormat) : Str :=
  match f with
  | PageFormat.A4 => ("a4").data
  | PageFormat.Letter => ("us-letter").data

/-- The driver program emitted by `generate_source` (engine.rs lines
179-209), assembled from the format-string literal. -/
def driver_source (template paper : Str) (margin : Nat) (font_family : Str)
    (font_size : Nat) (resume_json : Str) : Str :=
  ("#import \"templates/").data ++ template
    ++ (".typ\": template\n\n// Page configuration\n#set page(\n  paper: \"").data
    ++ paper
    ++ ("\",\n  margin: ").data ++ nat_to_str margin
    ++ ("pt,\n)\n\n// Typography configuration\n#set text(\n  font: \"").data
    ++ font_family
    ++ ("\",\n  size: ").data ++ nat_to_str font_size
    ++ ("pt,\n)\n\n// Parse the resume data\n#let data = json.decode(\"").data
    ++ resume_json
    ++ ("\")\n\n// Render the template\n#template(data)\n").data

/-- `TypstRenderer::generate_source` (engine.rs lines 127-212). The external
collaborators are parameters: `sanitize` (ammonia), `parse` (scraper) and
`serialize` (serde_json, which cannot fail on these types and is modelled
total); `default_template` is the renderer's `self.default_template`.
The margin and font-size bounds are enforced first; unknown templates
fall back to the default; the rich-text fields are preprocessed; the JSON
and the font family are escaped for embedding (backslashes first, then
quotes); finally the driver program is assembled. -/
def generate_source (sanitize : Str → Str) (parse : Str → List HNode)
    (serialize : ResumeData → Str) (default_template : Str)
    (resume : ResumeData) : Except RenderError Str :=
  let margin := resume.metadata.page.margin
  if margin > 100 then
    Except.error (RenderError.InvalidConfig (margin_error_msg margin))
  else
    let font_size := resume.metadata.typography.font.size
    if !(6 ≤ font_size && font_size ≤ 72) then
      Except.error (RenderError.InvalidConfig (font_size_error_msg font_size))
    else
      let template := resume.metadata.template
      let template_name :=
        if TEMPLATES.contains template then template else default_template
      let resume := preprocess_rich_text sanitize parse resume
      let resume_json := serialize resume
      let escaped_json :=
        replace_all (replace_all resume_json (("\\").data) (("\\\\").data))
          (("\"").data) (("\\\"").data)
      let escaped_font_family :=
        replace_all
          (replace_all resume.metadata.typography.font.family (("\\").data)
            (("\\\\").data))
          (("\"").data) (("\\\"").data)
      Except.ok (driver_source template_name
        (paper_name resume.metadata.page.format) resume.metadata.page.margin
        escaped_font_family resume.metadata.typography.font.size escaped_json)

-- ===========================================================================
-- crates/parser/src/json_resume.rs: the foreign JSON v1 adapter
-- ===========================================================================

/-- `ParseError` (parser/src/traits.rs). -/
inductive ParseError where
  | ReadError (msg : Str)
  | ValidationError (msg : Str)
  | ConversionError (msg : Str)
deriving DecidableEq

/-- `JsonResumeLocation` (json_resume.rs lines 54-63). -/
structure JsonResumeLocation where
  address : Option Str
  postal_code : Option Str
  city : Option Str
  country_code : Option Str
  region : Option Str
deriving DecidableEq

/-- `JsonResumeLocation::to_string` (json_resume.rs lines 65-79): join the
non-empty parts among city, region, countryCode with `", "`. -/
def JsonResumeLocation.to_string (loc : JsonResumeLocation) : Str :=
  let parts := ([loc.city, loc.region, loc.country_code].filterMap id).filter
    (fun s => !s.isEmpty)
  List.intercalate ((", ").data) parts

/-- `JsonResumeProfile` (json_resume.rs lines 81-87). -/
structure JsonResumeProfile where
  network : Option Str
  username : Option Str
  url : Option Str
deriving DecidableEq

/-- `JsonResumeBasics` (json_resume.rs lines 40-52). -/
structure JsonResumeBasics where
  name : Option Str
  label : Option Str
  image : Option Str
  email : Option Str
  phone : Option Str
  url : Option Str
  summary : Option Str
  location : Option JsonResumeLocation
  profiles : Option (List JsonResumeProfile)
deriving DecidableEq

/-- `JsonResumeWork` (json_resume.rs lines 89-100). -/
structure JsonResumeWork where
  name : Option Str
  position : Option Str
  url : Option Str
  start_date : Option Str
  end_date : Option Str
  summary : Option Str
  highlights : Option (List Str)
  location : Option Str
deriving DecidableEq

/-- `JsonResumeVolunteer` (json_resume.rs lines 102-113). -/
structure JsonResumeVolunteer where
  organization : Option Str
  position : Option Str
  url : Option Str
  start_date : Option Str
  end_date : Option Str
  summary : Option Str
  highlights : Option (List Str)
deriving DecidableEq

/-- `JsonResumeEducation` (json_resume.rs lines 115-127). -/
structure JsonResumeEducation where
  institution : Option Str
  url : Option Str
  area : Option Str
  study_type : Option Str
  start_date : Option Str
  end_date : Option Str
  score : Option Str
  courses : Option (List Str)
deriving DecidableEq

/-- `JsonResumeAward` (json_resume.rs lines 129-137). -/
structure JsonResumeAward where
  title : Option Str
  date : Option Str
  awarder : Option Str
  summary : Option Str
deriving DecidableEq

/-- `JsonResumeCertificate` (json_resume.rs lines 139-146). -/
structure JsonResumeCertificate where
  name : Option Str
  date : Option Str
  issuer : Option Str
  url : Option Str
deriving DecidableEq

/-- `JsonResumePublication` (json_resume.rs lines 148-157). -/
structure JsonResumePublication where
  name : Option Str
  publisher : Option Str
  release_date : Option Str
  url : Option Str
  summary : Option Str
deriving DecidableEq

/-- `JsonResumeSkill` (json_resume.rs lines 159-165). -/
structure JsonResumeSkill where
  name : Option Str
  level : Option Str
  keywords : Option (List Str)
deriving DecidableEq

/-- `JsonResumeLanguage` (json_resume.rs lines 167-172). -/
structure JsonResumeLanguage where
  language : Option Str
  fluency : Option Str
deriving DecidableEq

/-- `JsonResumeInterest` (json_resume.rs lines 174-179). -/
structure JsonResumeInterest where
  name : Option Str
  keywords : Option (List Str)
deriving DecidableEq

/-- `JsonResumeReference` (json_resume.rs lines 181-187). -/
structure JsonResumeReference where
  name : Option Str
  reference : Option Str
deriving DecidableEq

/-- `JsonResumeProject` (json_resume.rs lines 189-204). -/
structure JsonResumeProject where
  name : Option Str
  description : Option Str
  highlights : Option (List Str)
  keywords : Option (List Str)
  start_date : Option Str
  end_date : Option Str
  url : Option Str
  roles : Option (List Str)
  entity : Option Str
  project_type : Option Str
deriving DecidableEq

/-- `JsonResume` (json_resume.rs lines 22-38): the typed shape the adapter's
validate stage produces; every field is optional. -/
structure JsonResume where
  basics : Option JsonResumeBasics
  work : Option (List JsonResumeWork)
  volunteer : Option (List JsonResumeVolunteer)
  education : Option (List JsonResumeEducation)
  awards : Option (List JsonResumeAward)
  certificates : Option (List JsonResumeCertificate)
  publications : Option (List JsonResumePublication)
  skills : Option (List JsonResumeSkill)
  languages : Option (List JsonResumeLanguage)
  interests : Option (List JsonResumeInterest)
  references : Option (List JsonResumeReference)
  projects : Option (List JsonResumeProject)
deriving DecidableEq

/-- The entirely-empty typed input (all fields absent). -/
def JsonResume.empty : JsonResume :=
  { basics := none, work := none, volunteer := none, education := none,
    awards := none, certificates := none, publications := none,
    skills := none, languages := none, interests := none,
    references := none, projects := none }

/-- The `if let Some(basics)` block of `JsonResumeParser::convert`
(json_resume.rs lines 226-241). -/
def conv_v1_basics (o : Option JsonResumeBasics) : Basics :=
  match o with
  | none => Basics.deflt
  | some b =>
      { Basics.deflt with
        name := b.name.getD [],
        headline := b.label.getD [],
        picture := { Picture.deflt with url := b.image.getD [] },
        email := b.email.getD [],
        phone := b.phone.getD [],
        url := Url.new (b.url.getD []),
        location := match b.location with
          | some loc => loc.to_string
          | none => [] }

/-- The summary block of `convert` (json_resume.rs lines 238-241): a present
`basics.summary` becomes a fresh summary section. -/
def conv_v1_summary (o : Option JsonResumeBasics) : SummarySection :=
  match o with
  | none => SummarySection.deflt
  | some b =>
      match b.summary with
      | some s => SummarySection.new s
      | none => SummarySection.deflt

/-- One profile entry of `convert` (json_resume.rs lines 246-255). -/
def conv_v1_profile (p : JsonResumeProfile) : Profile :=
  let profile := Profile.new (p.network.getD []) (p.username.getD [])
  match p.url with
  | some url => profile.with_url url
  | none => profile

/-- The profiles block of `convert` (json_resume.rs lines 243-257). -/
def conv_v1_profiles (o : Option JsonResumeBasics) : Section Profile :=
  match o with
  | none => Section.deflt Profile
  | some b =>
      match b.profiles with
      | none => Section.deflt Profile
      | some ps =>
          { Section.new Profile (("profiles").data) (("Profiles").data) with
            items := ps.map conv_v1_profile }

/-- One work entry of `convert` (json_resume.rs lines 263-288). -/
def conv_v1_work (w : JsonResumeWork) : Experience :=
  let exp := Experience.new (w.name.getD []) (w.position.getD [])
  let exp := match w.location with
    | some l => exp.with_location l
    | none => exp
  let date := format_date_range w.start_date w.end_date
  let exp := if !date.isEmpty then exp.with_date date else exp
  let summary := build_summary w.summary w.highlights
  let exp := if !summary.isEmpty then exp.with_summary summary else exp
  match w.url with
  | some url => exp.with_url url
  | none => exp

/-- The work section of `convert` (json_resume.rs lines 261-290). -/
def conv_v1_work_section (o : Option (List JsonResumeWork)) : Section Experience :=
  match o with
  | none => Section.deflt Experience
  | some ws =>
      { Section.new Experience (("experience").data) (("Experience").data) with
        items := ws.map conv_v1_work }

/-- One education entry of `convert` (json_resume.rs lines 295-321). -/
def conv_v1_education (e : JsonResumeEducation) : Education :=
  let edu := Education.new (e.institution.getD []) (e.area.getD [])
  let edu := match e.study_type with
    | some st => edu.with_study_type st
    | none => edu
  let date := format_date_range e.start_date e.end_date
  let edu := if !date.isEmpty then edu.with_date date else edu
  let edu := match e.score with
    | some sc => edu.with_score sc
    | none => edu
  match e.courses with
  | some cs =>
      if !cs.isEmpty then
        edu.with_summary (("Courses: ").data ++ List.intercalate ((", ").data) cs)
      else edu
  | none => edu

/-- The education section of `convert` (json_resume.rs lines 293-323). -/
def conv_v1_education_section (o : Option (List JsonResumeEducation)) :
    Section Education :=
  match o with
  | none => Section.deflt Education
  | some es =>
      { Section.new Education (("education").data) (("Education").data) with
        items := es.map conv_v1_education }

/-- One skill entry of `convert` (json_resume.rs lines 328-339): the v1
string level is stored as the description verbatim. -/
def conv_v1_skill (s : JsonResumeSkill) : Skill :=
  let skill := Skill.new (s.name.getD [])
  let skill := match s.level with
    | some level => skill.with_description level
    | none => skill
  match s.keywords with
  | some kws => skill.with_keywords kws
  | none => skill

/-- The skills section of `convert` (json_resume.rs lines 326-341). -/
def conv_v1_skills_section (o : Option (List JsonResumeSkill)) : Section Skill :=
  match o with
  | none => Section.deflt Skill
  | some ss =>
      { Section.new Skill (("skills").data) (("Skills").data) with
        items := ss.map conv_v1_skill }

/-- One project entry of `convert` (json_resume.rs lines 346-366). -/
def conv_v1_project (p : JsonResumeProject) : Project :=
  let project := Project.new (p.name.getD [])
  let project := match p.description with
    | some d => project.with_description d
    | none => project
  let summary := build_summary none p.highlights
  let project := if !summary.isEmpty then project.with_summary summary else project
  let project := match p.keywords with
    | some kws => project.with_keywords kws
    | none => project
  match p.url with
  | some url => project.with_url url
  | none => project

/-- The projects section of `convert` (json_resume.rs lines 344-368). -/
def conv_v1_projects_section (o : Option (List JsonResumeProject)) :
    Section Project :=
  match o with
  | none => Section.deflt Project
  | some ps =>
      { Section.new Project (("projects").data) (("Projects").data) with
        items := ps.map conv_v1_project }

/-- One volunteer entry of `convert` (json_resume.rs lines 374-378): only
organization and position are carried over. -/
def conv_v1_volunteer (v : JsonResumeVolunteer) : Volunteer :=
  Volunteer.new (v.organization.getD []) (v.position.getD [])

/-- The volunteer section of `convert` (json_resume.rs lines 371-380). -/
def conv_v1_volunteer_section (o : Option (List JsonResumeVolunteer)) :
    Section Volunteer :=
  match o with
  | none => Section.deflt Volunteer
  | some vs =>
      { Section.new Volunteer (("volunteer").data) (("Volunteer").data) with
        items := vs.map conv_v1_volunteer }

/-- One award entry of `convert` (json_resume.rs lines 385-393). -/
def conv_v1_award (a : JsonResumeAward) : Award :=
  let award := Award.new (a.title.getD [])
  let award := match a.awarder with
    | some aw => award.with_awarder aw
    | none => award
  match a.date with
  | some d => award.with_date d
  | none => award

/-- The awards section of `convert` (json_resume.rs lines 383-395). -/
def conv_v1_awards_section (o : Option (List JsonResumeAward)) : Section Award :=
  match o with
  | none => Section.deflt Award
  | some as_ =>
      { Section.new Award (("awards").data) (("Awards").data) with
        items := as_.map conv_v1_award }

/-- One certificate entry of `convert` (json_resume.rs lines 400-411). -/
def conv_v1_certificate (c : JsonResumeCertificate) : Certification :=
  let cert := Certification.new (c.name.getD []) (c.issuer.getD [])
  let cert := match c.date with
    | some d => cert.with_date d
    | none => cert
  match c.url with
  | some url => cert.with_url url
  | none => cert

/-- The certifications section of `convert` (json_resume.rs lines 398-413). -/
def conv_v1_certificates_section (o : Option (List JsonResumeCertificate)) :
    Section Certification :=
  match o with
  | none => Section.deflt Certification
  | some cs =>
      { Section.new Certification (("certifications").data)
          (("Certifications").data) with
        items := cs.map conv_v1_certificate }

/-- One publication entry of `convert` (json_resume.rs lines 418-421). -/
def conv_v1_publication (p : JsonResumePublication) : Publication :=
  Publication.new (p.name.getD [])

/-- The publications section of `convert` (json_resume.rs lines 416-422). -/
def conv_v1_publications_section (o : Option (List JsonResumePublication)) :
    Section Publication :=
  match o with
  | none => Section.deflt Publication
  | some ps =>
      { Section.new Publication (("publications").data)
          (("Publications").data) with
        items := ps.map conv_v1_publication }

/-- One language entry of `convert` (json_resume.rs lines 427-434): the raw
fluency string is stored as the description and mapped to a level. -/
def conv_v1_language (l : JsonResumeLanguage) : Language :=
  let lang := Language.new (l.language.getD [])
  match l.fluency with
  | some fluency =>
      (lang.with_description fluency).with_level (fluency_to_level fluency)
  | none => lang

/-- The languages section of `convert` (json_resume.rs lines 425-436). -/
def conv_v1_languages_section (o : Option (List JsonResumeLanguage)) :
    Section Language :=
  match o with
  | none => Section.deflt Language
  | some ls =>
      { Section.new Language (("languages").data) (("Languages").data) with
        items := ls.map conv_v1_language }

/-- One interest entry of `convert` (json_resume.rs lines 441-446). -/
def conv_v1_interest (i : JsonResumeInterest) : Interest :=
  let interest := Interest.new (i.name.getD [])
  match i.keywords with
  | some kws => interest.with_keywords kws
  | none => interest

/-- The interests section of `convert` (json_resume.rs lines 439-448). -/
def conv_v1_interests_section (o : Option (List JsonResumeInterest)) :
    Section Interest :=
  match o with
  | none => Section.deflt Interest
  | some is_ =>
      { Section.new Interest (("interests").data) (("Interests").data) with
        items := is_.map conv_v1_interest }

/-- One reference entry of `convert` (json_resume.rs lines 453-455). -/
def conv_v1_reference (r : JsonResumeReference) : Reference :=
  Reference.new (r.name.getD [])

/-- The references section of `convert` (json_resume.rs lines 451-457). -/
def conv_v1_references_section (o : Option (List JsonResumeReference)) :
    Section Reference :=
  match o with
  | none => Section.deflt Reference
  | some rs =>
      { Section.new Reference (("references").data) (("References").data) with
        items := rs.map conv_v1_reference }

/-- `JsonResumeParser::convert` (json_resume.rs lines 222-460): start from
the default document and fill in each region; every assignment in the
Rust body touches a distinct field, so the sequential mutation is
rendered field by field. The function always returns `Ok`. -/
def jsonresume_convert (data : JsonResume) : Except ParseError ResumeData :=
  Except.ok
    { basics := conv_v1_basics data.basics,
      sections :=
        { Sections.deflt with
          summary := conv_v1_summary data.basics,
          profiles := conv_v1_profiles data.basics,
          experience := conv_v1_work_section data.work,
          education := conv_v1_education_section data.education,
          skills := conv_v1_skills_section data.skills,
          projects := conv_v1_projects_section data.projects,
          volunteer := conv_v1_volunteer_section data.volunteer,
          awards := conv_v1_awards_section data.awards,
          certifications := conv_v1_certificates_section data.certificates,
          publications := conv_v1_publications_section data.publications,
          languages := conv_v1_languages_section data.languages,
          interests := conv_v1_interests_section data.interests,
          references := conv_v1_references_section data.references },
      metadata := Metadata.deflt }

/-- An optional URL string from the v1 input is harmless when absent, empty
or a well-formed http(s) URL (what `validate_optional_url` accepts after
the adapter copies it verbatim). -/
def opt_url_ok (o : Option Str) : Bool :=
  okB (validate_optional_url (o.getD []))

/-- The well-formedness of a v1 input that the canonical validator checks
after conversion: the e-mail and every URL-valued field (basics url,
profile urls, work urls, project urls, certificate urls) must be absent,
empty or well-formed. All other canonical constraints hold by
construction of `convert`. -/
def v1_input_ok (data : JsonResume) : Bool :=
  (match data.basics with
   | none => true
   | some b =>
       okB (validate_optional_email (b.email.getD [])) && opt_url_ok b.url
         && (match b.profiles with
             | none => true
             | some ps => ps.all (fun p => opt_url_ok p.url)))
  && (match data.work with
      | none => true
      | some ws => ws.all (fun w => opt_url_ok w.url))
  && (match data.projects with
      | none => true
      | some ps => ps.all (fun p => opt_url_ok p.url))
  && (match data.certificates with
      | none => true
      | some cs => cs.all (fun c => opt_url_ok c.url))

-- ===========================================================================
-- crates/parser/src/reactive_resume_v3.rs: the v3 migration adapter
-- (the parts the claims exercise)
-- ===========================================================================

/-- `V3Url` (reactive_resume_v3.rs lines 68-78): a URL in the v3 input is
absent, a plain string, or an object with optional label and href. -/
inductive V3Url where
  | Empty
  | Strng (s : Str)
  | Objct (label : Option Str) (href : Option Str)
deriving DecidableEq

/-- `V3Url::to_href` (reactive_resume_v3.rs lines 81-87). -/
def V3Url.to_href (u : V3Url) : Str :=
  match u with
  | V3Url.Empty => []
  | V3Url.Strng s => s
  | V3Url.Objct _ href => href.getD []

/-- `V3Url::to_label` (reactive_resume_v3.rs lines 89-97): an object with no
explicit label falls back to its href. -/
def V3Url.to_label (u : V3Url) : Str :=
  match u with
  | V3Url.Empty => []
  | V3Url.Strng s => s
  | V3Url.Objct label href => label.getD (href.getD [])

/-- `V3Section<T>` (reactive_resume_v3.rs lines 196-206). -/
structure V3Section (T : Type) where
  id : Option Str
  name : Option Str
  columns : Option Nat
  visible : Option Bool
  items : List T
deriving DecidableEq

/-- `V3Experience` (reactive_resume_v3.rs lines 222-234). -/
structure V3Experience where
  id : Option Str
  visible : Option Bool
  company : Option Str
  position : Option Str
  location : Option Str
  date : Option Str
  summary : Option Str
  url : Option V3Url
deriving DecidableEq

/-- One item of `convert_experience` (reactive_resume_v3.rs lines 632-656):
the canonical item keeps the original id when present; a present url is
reduced with `to_href` and installed through `with_url`, which builds
`Url::new` — so the canonical label is always empty. -/
def conv_v3_experience_item (e : V3Experience) : Experience :=
  let exp := Experience.new (e.company.getD []) (e.position.getD [])
  let exp := { exp with id := e.id.getD cuid2_create_id,
                        visible := e.visible.getD true }
  let exp := match e.location with
    | some l => exp.with_location l
    | none => exp
  let exp := match e.date with
    | some d => exp.with_date d
    | none => exp
  let exp := match e.summary with
    | some s => exp.with_summary s
    | none => exp
  match e.url with
  | some url => exp.with_url url.to_href
  | none => exp

/-- `convert_experience` (reactive_resume_v3.rs lines 626-657): the Rust
function mutates the default section in place; here it takes that section
and returns the updated one. -/
def convert_experience (v3 : V3Section V3Experience)
    (sec : Section Experience) : Section Experience :=
  { sec with
    id := v3.id.getD (("experience").data),
    name := v3.name.getD (("Experience").data),
    columns := v3.columns.getD 1,
    visible := v3.visible.getD true,
    items := v3.items.map conv_v3_experience_item }

/-- The concrete S5 fixture of the claim: a v3 experience section holding a
single item whose url is the plain string `"https://y"`. -/
def v3_section_with_string_url : V3Section V3Experience :=
  { id := none, name := none, columns := none, visible := none,
    items := [{ id := some (("exp-1").data), visible := some true,
                company := some (("Co").data),
                position := some (("Dev").data), location := none,
                date := none, summary := none,
                url := some (V3Url.Strng (("https://y").data)) }] }

-- ===========================================================================
-- Concrete stand-ins for the external collaborators, and sample documents
-- ===========================================================================

/-- The typed image of the byte string `{"basics":{"email":"bad"}}` under
the v1 adapter's read and validate stages (plain serde decoding): only
the e-mail is present, and it is not a well-formed address. -/
def v1_bad_email_basics : JsonResumeBasics :=
  { name := none, label := none, image := none, email := some (("bad").data),
    phone := none, url := none, summary := none, location := none,
    profiles := none }

/-- The full typed input: everything absent except the bad e-mail. -/
def v1_bad_email_input : JsonResume :=
  { JsonResume.empty with basics := some v1_bad_email_basics }


/-- A concrete sanitiser stand-in (the identity) for closed instantiations
of theorems parameterised over the external `ammonia` sanitiser. -/
def sanitize_id : Str → Str :=
  fun s => s

/-- A concrete fragment-parser stand-in (no nodes) for closed instantiations;
inputs without a `'<'` never consult the parser, so any stand-in yields
the code's actual behaviour on them. -/
def parse_nil : Str → List HNode :=
  fun _ => []

/-- A concrete serialiser stand-in for closed instantiations; the
configuration checks of `generate_source` never look at the serialised
JSON. -/
def serialize_nil : ResumeData → Str :=
  fun _ => []

/-- The spec's S7 fixture: a default document with `metadata.page.margin`
set to 150. -/
def margin150_resume : ResumeData :=
  { ResumeData.deflt with metadata :=
    { Metadata.deflt with page := { PageConfig.deflt with margin := 150 } } }

/-- The spec's S7 fixture: a default document with
`metadata.typography.font.size` set to 2. -/
def font2_resume : ResumeData :=
  { ResumeData.deflt with metadata :=
    { Metadata.deflt with typography :=
      { Typography.deflt with font := { FontConfig.deflt with size := 2 } } } }

-- ===========================================================================
-- ===========================================================================
--                                THEOREMS
-- ===========================================================================
-- ===========================================================================

-- Shared helper lemmas -------------------------------------------------------

/-- Mapping then testing a list equals testing the composition. -/
theorem all_map_eq {α β : Type} (f : α → β) (p : β → Bool) (l : List α) :
    (l.map f).all p = l.all (fun x => p (f x)) := by
  induction l with
  | nil => rfl
  | cons a l ih => simp [ih]

/-- Membership survives `dropWhile`. -/
theorem mem_of_mem_dropWhile {α : Type} (p : α → Bool) (l : List α) (x : α)
    (h : x ∈ l.dropWhile p) : x ∈ l := by
  induction l with
  | nil => simp at h
  | cons a l ih =>
      rw [List.dropWhile_cons] at h
      by_cases hp : p a = true
      · simp only [hp, if_true] at h
        exact List.mem_cons_of_mem a (ih h)
      · simp only [hp] at h
        simpa using h

/-- Membership survives `rust_trim`. -/
theorem mem_of_mem_rust_trim (s : Str) (c : Char) (h : c ∈ rust_trim s) :
    c ∈ s := by
  unfold rust_trim rust_trim_end rust_trim_start at h
  rw [List.mem_reverse] at h
  have h2 := mem_of_mem_dropWhile _ _ _ h
  rw [List.mem_reverse] at h2
  exact mem_of_mem_dropWhile _ _ _ h2

/-- `dropWhile` is idempotent. -/
theorem dropWhile_dropWhile {α : Type} (p : α → Bool) (l : List α) :
    (l.dropWhile p).dropWhile p = l.dropWhile p := by
  induction l with
  | nil => rfl
  | cons a l ih =>
      rw [List.dropWhile_cons]
      by_cases hp : p a = true
      · simpa [hp] using ih
      · simp [List.dropWhile_cons, hp]

/-- `dropWhile` over an append. -/
theorem dropWhile_append {α : Type} (p : α → Bool) (xs ys : List α) :
    (xs ++ ys).dropWhile p =
      if xs.all p then ys.dropWhile p else xs.dropWhile p ++ ys := by
  induction xs with
  | nil => simp
  | cons a xs ih =>
      by_cases hp : p a = true
      · simp [List.dropWhile_cons, hp, ih]
      · simp [List.dropWhile_cons, hp]

/-- `dropWhile` shortens or keeps the length. -/
theorem length_dropWhile_le' {α : Type} (p : α → Bool) (l : List α) :
    (l.dropWhile p).length ≤ l.length := by
  induction l with
  | nil => simp
  | cons a l ih =>
      rw [List.dropWhile_cons]
      by_cases hp : p a = true
      · simp only [hp, if_true]
        exact Nat.le_succ_of_le ih
      · simp [hp]

/-- If front-trimming a list is the identity, front-trimming its end-trimmed
form is also the identity. -/
theorem dropWhile_of_trimEnd {α : Type} (p : α → Bool) (l : List α)
    (h : l.dropWhile p = l) :
    ((l.reverse.dropWhile p).reverse).dropWhile p =
      (l.reverse.dropWhile p).reverse := by
  cases l with
  | nil => simp
  | cons a l =>
      have hp : p a = false := by
        rw [List.dropWhile_cons] at h
        by_cases hpa : p a = true
        · exfalso
          rw [if_pos hpa] at h
          have hlen := length_dropWhile_le' p l
          rw [h] at hlen
          simp only [List.length_cons] at hlen
          omega
        · simpa using hpa
      rw [List.reverse_cons, dropWhile_append]
      by_cases hall : l.reverse.all p = true
      · simp [hall, List.dropWhile_cons, hp]
      · simp only [hall, Bool.false_eq_true, if_false]
        rw [List.reverse_append]
        simp [List.dropWhile_cons, hp]

/-- `rust_trim` is idempotent. -/
theorem rust_trim_idem (s : Str) : rust_trim (rust_trim s) = rust_trim s := by
  unfold rust_trim rust_trim_end rust_trim_start
  have h1 : (s.dropWhile is_rust_whitespace).dropWhile is_rust_whitespace
      = s.dropWhile is_rust_whitespace := dropWhile_dropWhile _ s
  have h2 := dropWhile_of_trimEnd is_rust_whitespace
    (s.dropWhile is_rust_whitespace) h1
  rw [h2, List.reverse_reverse, dropWhile_dropWhile]

-- ===========================================================================
-- C5: the date-range formatters implement the spec's four-case table
-- ===========================================================================

/-- C5: for every pair of optional start/end date strings, both the shared
`format_date_range` (used by the v1 adapter) and the social-export
adapter's `format_linkedin_date_range` return `"<start> - <end>"` when
both dates are non-empty after trimming, `"<start> - Present"` when only
the start is, the bare end string when only the end is, and the empty
string when neither is; whitespace-only inputs count as empty. The
right-hand side `date_range_spec` is transcribed from the spec's table. -/
theorem c5_date_range_formatters (start stop : Option Str) :
    format_date_range start stop = date_range_spec start stop
      ∧ format_linkedin_date_range start stop = date_range_spec start stop := by
  constructor <;>
    cases start <;> cases stop <;>
      simp [format_date_range, format_linkedin_date_range, date_range_spec,
        trimmed_nonempty]

-- ===========================================================================
-- C7: the social-export proficiency mapping
-- ===========================================================================

/-- C7: for every proficiency string, the social-export adapter maps (by
case-insensitive substring match, in this order) native/bilingual/full
professional to 5, professional working/fluent to 4, limited
working/intermediate to 3, elementary/basic to 2, and anything else to 3
(`linkedin_level_spec` is transcribed from the spec's table, with default
3); the v1 adapter's mapping `fluency_to_level` instead follows
`jsonresume_level_spec`, whose default for unrecognised text is 0. -/
theorem c7_proficiency_mapping (p : Str) :
    proficiency_to_level p = linkedin_level_spec p
      ∧ fluency_to_level p = jsonresume_level_spec p :=
  ⟨rfl, rfl⟩

-- ===========================================================================
-- C9: the Skill/Language level setters clamp into [0, 5]
-- ===========================================================================

/-- C9: for every Skill or Language item and every requested level, the
level setter clamps the stored level into [0, 5]: setting 10 yields 5,
and after any setter call the stored level satisfies 0 ≤ level ≤ 5 (the
lower bound is the `u8` bound, vacuous for `Nat`). -/
theorem c9_level_setters_clamp (s : Skill) (l : Language) (n : Nat) :
    (s.with_level n).level ≤ 5 ∧ 0 ≤ (s.with_level n).level
      ∧ (l.with_level n).level ≤ 5 ∧ 0 ≤ (l.with_level n).level
      ∧ (s.with_level 10).level = 5 ∧ (l.with_level 10).level = 5 := by
  refine ⟨?_, Nat.zero_le _, ?_, Nat.zero_le _, rfl, rfl⟩ <;>
    simp [Skill.with_level, Language.with_level, clamp_level]

-- ===========================================================================
-- C2: the v3 adapter's URL conversion for items
-- ===========================================================================

/-- C2: at the claim's own fixture — a v3 experience item with
`url = "https://y"` — the adapter produces `url.href = "https://y"` as
claimed, but the canonical label is the EMPTY string, not the href:
`convert_experience` installs the URL through `with_url(url.to_href())`,
and `with_url` builds `Url::new`, which discards the label.
`V3Url::to_label` itself does implement the claimed href fallback, but it
is only ever applied to `basics.url`, never to item URLs. -/
theorem c2_v3_url_label_dropped :
    ((convert_experience v3_section_with_string_url
        (Section.deflt Experience)).items.map
          (fun it => (it.url.href, it.url.label)))
        = [((("https://y").data), ([] : Str))]
      ∧ V3Url.to_label (V3Url.Strng (("https://y").data)) = ("https://y").data
      ∧ ¬ (([] : Str) = ("https://y").data) := by
  refine ⟨by decide, rfl, by decide⟩

-- ===========================================================================
-- C6: the theme-colour validator
-- ===========================================================================

/-- C6 counterexample: the string `"##ffffff"` (two leading hashes) is
accepted by `validate_hex_color` — `trim_start_matches('#')` strips every
leading `'#'` — but does not match the claimed regular expression
`^#?[0-9A-Fa-f]{6}$`, which allows at most one leading `'#'`. -/
theorem c6_counterexample :
    okB (validate_hex_color (("##ffffff").data)) = true
      ∧ matches_hex_regex (("##ffffff").data) = false := by
  decide

/-- C6 amended: for every string, the theme-colour validator accepts it if
and only if it is empty or consists of any number (zero or more) of
leading `'#'` characters followed by exactly six hexadecimal digits. -/
theorem c6_amended_hex_accepts_iff (s : Str) :
    okB (validate_hex_color s) = (s.isEmpty || matches_hex_relaxed s) := by
  have key : ∀ t : Str, matches_hex_relaxed t
      = ((t.dropWhile (fun c => c == '#')).length == 6
          && (t.dropWhile (fun c => c == '#')).all is_ascii_hexdigit) := by
    intro t
    induction t with
    | nil => simp [matches_hex_relaxed]
    | cons c rest ih =>
        by_cases hc : (c == '#') = true
        · simp [matches_hex_relaxed, List.dropWhile_cons, hc, ih]
        · simp only [Bool.not_eq_true] at hc
          simp [matches_hex_relaxed, List.dropWhile_cons, hc]
  by_cases hs : s.isEmpty = true
  · simp [validate_hex_color, hs, okB]
  · simp only [validate_hex_color, hs, Bool.false_eq_true, if_false,
      Bool.false_or, key s]
    by_cases h6 : ((s.dropWhile (fun c => c == '#')).length == 6
        && (s.dropWhile (fun c => c == '#')).all is_ascii_hexdigit) = true
    · simp [h6, okB]
    · simp only [Bool.not_eq_true] at h6
      simp [h6, okB]

-- ===========================================================================
-- C3: generate_source configuration checks
-- ===========================================================================

/-- The margin error message carries the word `"Margin"`. -/
theorem margin_msg_mentions_margin (margin : Nat) :
    (("Margin").data) <:+: margin_error_msg margin := by
  have h1 : (("Margin").data) <+: (("Margin ").data) := ⟨[' '], by decide⟩
  have h2 : (("Margin ").data) <+: margin_error_msg margin := by
    unfold margin_error_msg
    rw [List.append_assoc]
    exact List.prefix_append _ _
  exact (h1.trans h2).isInfix

/-- The font-size error message carries the words `"Font size"`. -/
theorem font_msg_mentions_font_size (size : Nat) :
    (("Font size").data) <:+: font_size_error_msg size := by
  have h1 : (("Font size").data) <+: (("Font size ").data) := ⟨[' '], by decide⟩
  have h2 : (("Font size ").data) <+: font_size_error_msg size := by
    unfold font_size_error_msg
    rw [List.append_assoc]
    exact List.prefix_append _ _
  exact (h1.trans h2).isInfix

/-- C3: for every document (and any sanitiser, fragment parser, serialiser
and default template), `generate_source` returns an `InvalidConfig` error
if and only if `metadata.page.margin` exceeds 100 or
`typography.font.size` lies outside `[6, 72]`; the error for an excessive
margin mentions `"Margin"` and the error for an out-of-range font size
mentions `"Font size"` (the margin check fires first). -/
theorem c3_generate_source_invalid_config (sanitize : Str → Str)
    (parse : Str → List HNode) (serialize : ResumeData → Str) (dt : Str)
    (r : ResumeData) :
    ((∃ m, generate_source sanitize parse serialize dt r
          = Except.error (RenderError.InvalidConfig m))
        ↔ (100 < r.metadata.page.margin
            ∨ r.metadata.typography.font.size < 6
            ∨ 72 < r.metadata.typography.font.size))
      ∧ (100 < r.metadata.page.margin →
          generate_source sanitize parse serialize dt r
              = Except.error (RenderError.InvalidConfig
                  (margin_error_msg r.metadata.page.margin))
            ∧ (("Margin").data) <:+: margin_error_msg r.metadata.page.margin)
      ∧ (r.metadata.page.margin ≤ 100 →
          (r.metadata.typography.font.size < 6
              ∨ 72 < r.metadata.typography.font.size) →
          generate_source sanitize parse serialize dt r
              = Except.error (RenderError.InvalidConfig
                  (font_size_error_msg r.metadata.typography.font.size))
            ∧ (("Font size").data) <:+:
                font_size_error_msg r.metadata.typography.font.size) := by
  have hA : 100 < r.metadata.page.margin →
      generate_source sanitize parse serialize dt r
        = Except.error (RenderError.InvalidConfig
            (margin_error_msg r.metadata.page.margin)) := by
    intro h1
    unfold generate_source
    rw [if_pos h1]
  have hB : r.metadata.page.margin ≤ 100 →
      (r.metadata.typography.font.size < 6
          ∨ 72 < r.metadata.typography.font.size) →
      generate_source sanitize parse serialize dt r
        = Except.error (RenderError.InvalidConfig
            (font_size_error_msg r.metadata.typography.font.size)) := by
    intro h1 h2
    unfold generate_source
    rw [if_neg (by omega)]
    rw [if_pos]
    simp only [Bool.not_eq_eq_eq_not, Bool.not_true, Bool.and_eq_false_iff,
      decide_eq_false_iff_not]
    omega
  have hC : r.metadata.page.margin ≤ 100 →
      6 ≤ r.metadata.typography.font.size →
      r.metadata.typography.font.size ≤ 72 →
      ∃ out, generate_source sanitize parse serialize dt r = Except.ok out := by
    intro h1 h2 h3
    unfold generate_source
    rw [if_neg (by omega)]
    rw [if_neg]
    · exact ⟨_, rfl⟩
    · simp only [Bool.not_eq_eq_eq_not, Bool.not_true, Bool.and_eq_false_iff,
        decide_eq_false_iff_not]
      omega
  refine ⟨⟨?_, ?_⟩, fun h1 => ⟨hA h1, margin_msg_mentions_margin _⟩,
    fun h1 h2 => ⟨hB h1 h2, font_msg_mentions_font_size _⟩⟩
  · rintro ⟨m, hm⟩
    by_cases h1 : 100 < r.metadata.page.margin
    · exact Or.inl h1
    · by_cases h2 : 6 ≤ r.metadata.typography.font.size
          ∧ r.metadata.typography.font.size ≤ 72
      · obtain ⟨out, hout⟩ := hC (by omega) h2.1 h2.2
        rw [hout] at hm
        exact absurd hm (by simp)
      · right
        omega
  · rintro (h1 | h2 | h3)
    · exact ⟨_, hA h1⟩
    · by_cases h1 : 100 < r.metadata.page.margin
      · exact ⟨_, hA h1⟩
      · exact ⟨_, hB (by omega) (Or.inl h2)⟩
    · by_cases h1 : 100 < r.metadata.page.margin
      · exact ⟨_, hA h1⟩
      · exact ⟨_, hB (by omega) (Or.inr h3)⟩

/-- Witness for C3 at the spec's S7 fixtures: margin 150 produces the
`"Margin"` error, font size 2 produces the `"Font size"` error. -/
theorem c3_generate_source_invalid_config_witness :
    (generate_source sanitize_id parse_nil serialize_nil (("rhyhorn").data)
          margin150_resume
        = Except.error (RenderError.InvalidConfig (margin_error_msg 150))
      ∧ (("Margin").data) <:+: margin_error_msg 150)
    ∧ (generate_source sanitize_id parse_nil serialize_nil (("rhyhorn").data)
          font2_resume
        = Except.error (RenderError.InvalidConfig (font_size_error_msg 2))
      ∧ (("Font size").data) <:+: font_size_error_msg 2) := by
  constructor
  · exact (c3_generate_source_invalid_config sanitize_id parse_nil
      serialize_nil (("rhyhorn").data) margin150_resume).2.1 (by decide)
  · exact (c3_generate_source_invalid_config sanitize_id parse_nil
      serialize_nil (("rhyhorn").data) font2_resume).2.2 (by decide)
      (Or.inl (by decide))

-- ===========================================================================
-- C4: idempotence of the rich-text normaliser
-- ===========================================================================

/-- C4 counterexample: the one-character input `"#"` refutes idempotence.
The first pass escapes it to `"\#"`; the second pass escapes the
backslash and the hash again, yielding `"\\\#"`. Neither input contains
a `'<'`, so the external fragment parser is never consulted and the
`parse_nil` stand-in exercises the code's actual behaviour. -/
theorem c4_counterexample :
    html_to_typst parse_nil (("#").data) = ("\\#").data
      ∧ html_to_typst parse_nil (html_to_typst parse_nil (("#").data))
          = ("\\\\\\#").data
      ∧ ¬ (html_to_typst parse_nil (html_to_typst parse_nil (("#").data))
            = html_to_typst parse_nil (("#").data)) := by
  refine ⟨by decide, by decide, by decide⟩

/-- A character that is not Typst-special escapes to itself. -/
theorem escape_typst_char_plain (c : Char)
    (h : typst_special_char c = false) : escape_typst_char c = [c] := by
  simp only [typst_special_char] at h
  simp only [escape_typst_char]
  simp_all

/-- Stringwise: escaping is the identity on strings without Typst-special
characters. -/
theorem escape_typst_plain (t : Str)
    (h : ∀ c ∈ t, typst_special_char c = false) : escape_typst t = t := by
  induction t with
  | nil => rfl
  | cons c rest ih =>
      simp only [escape_typst]
      rw [escape_typst_char_plain c (h c (List.mem_cons_self c rest))]
      rw [ih (fun x hx => h x (List.mem_cons_of_mem c hx))]
      rfl

/-- C4 amended: the normaliser is not idempotent in general (see the
counterexample: re-application escapes the Typst-special characters
again); it is idempotent on inputs containing no Typst-special character
(`\ # [ ] $ @ * _ `  % ~ < >`), where the output is the trimmed input. -/
theorem c4_amended_idempotent_on_plain (parse : Str → List HNode) (s : Str)
    (h : s.all (fun c => !typst_special_char c) = true) :
    html_to_typst parse (html_to_typst parse s) = html_to_typst parse s := by
  rw [List.all_eq_true] at h
  have htrim : ∀ c ∈ rust_trim s, typst_special_char c = false := by
    intro c hc
    have := h c (mem_of_mem_rust_trim s c hc)
    simpa using this
  by_cases he : (rust_trim s).isEmpty = true
  · have h1 : html_to_typst parse s = [] := by
      unfold html_to_typst
      rw [if_pos he]
    rw [h1]
    simp [html_to_typst, rust_trim, rust_trim_start, rust_trim_end]
  · have hlt : (rust_trim s).any (fun c => c == '<') = false := by
      cases ha : (rust_trim s).any (fun c => c == '<') with
      | false => rfl
      | true =>
          exfalso
          rw [List.any_eq_true] at ha
          obtain ⟨c, hc, hb⟩ := ha
          have hce : c = '<' := by simpa using hb
          have := htrim c hc
          rw [hce] at this
          simp [typst_special_char] at this
    have h1 : html_to_typst parse s = rust_trim s := by
      unfold html_to_typst
      rw [if_neg he, hlt]
      simp only [Bool.not_false, if_true]
      exact escape_typst_plain _ htrim
    rw [h1]
    have htrim2 : rust_trim (rust_trim s) = rust_trim s := rust_trim_idem s
    unfold html_to_typst
    rw [htrim2, if_neg he, hlt]
    simp only [Bool.not_false, if_true]
    exact escape_typst_plain _ htrim

/-- Witness for C4's amended claim at the plain input `"Hello world"`. -/
theorem c4_amended_idempotent_on_plain_witness :
    ((("Hello world").data).all (fun c => !typst_special_char c) = true)
      ∧ html_to_typst parse_nil
            (html_to_typst parse_nil (("Hello world").data))
          = html_to_typst parse_nil (("Hello world").data) :=
  ⟨by decide, c4_amended_idempotent_on_plain parse_nil (("Hello world").data)
    (by decide)⟩

-- ===========================================================================
-- C10: the rich-text preprocessing pass touches only rich-text fields
-- ===========================================================================

/-- Mapping `g` after `f` equals mapping `g` alone when `g` cancels `f`
pointwise. -/
theorem map_map_cancel {α β : Type} (f : α → α) (g : α → β)
    (h : ∀ a, g (f a) = g a) (l : List α) : (l.map f).map g = l.map g := by
  induction l with
  | nil => rfl
  | cons a l ih => simp only [List.map_cons, h a, ih]

/-- C10: for every document (and any sanitiser and fragment parser), the
rich-text preprocessing pass changes only the rich-text fields — the
summary section's content and the summary/description fields of the
items of every section, custom sections included. Formally: erasing
exactly those fields with `scrub_rich_text` on the preprocessed document
gives the same result as erasing them on the input, so every other field
(names, dates, IDs, keywords, basics, metadata, section settings) is
untouched. -/
theorem c10_preprocess_frame (sanitize : Str → Str) (parse : Str → List HNode)
    (r : ResumeData) :
    scrub_rich_text (preprocess_rich_text sanitize parse r)
      = scrub_rich_text r := by
  obtain ⟨basics, sections, metadata⟩ := r
  obtain ⟨su, ex, ed, sk, pj, pf, aw, ce, pu, la, it, vo, re, cu⟩ := sections
  simp only [preprocess_rich_text, scrub_rich_text, ResumeData.mk.injEq,
    Sections.mk.injEq, Section.mk.injEq, SummarySection.mk.injEq,
    eq_self_iff_true, true_and, and_true]
  repeat' apply And.intro
  all_goals
    first
      | rfl
      | (refine map_map_cancel _ _ (fun a => ?_) _
         rfl)
      | (refine map_map_cancel _ _ (fun kv => ?_) _
         refine congrArg (fun x => (kv.1, Section.mk (kv.2).id (kv.2).name
           (kv.2).columns (kv.2).separate_links (kv.2).visible x)) ?_
         refine map_map_cancel _ _ (fun a => ?_) _
         rfl)

-- ===========================================================================
-- C1: adapter outputs versus the canonical validator
-- ===========================================================================

/-- Pointwise-equal predicates test lists equally. -/
theorem all_ext {α : Type} (f g : α → Bool) (h : ∀ a, f a = g a)
    (l : List α) : l.all f = l.all g := by
  induction l with
  | nil => rfl
  | cons a l ih => simp only [List.all_cons, h a, ih]

/-- The constant-true test accepts every list. -/
theorem all_true {α : Type} (l : List α) : l.all (fun _ => true) = true := by
  induction l with
  | nil => rfl
  | cons a l ih => simp only [List.all_cons, ih, Bool.true_and]

/-- The Experience builders do not touch the URL (projection lemmas). -/
theorem exp_with_location_url (e : Experience) (l : Str) :
    (e.with_location l).url = e.url := rfl

/-- `with_date` keeps the Experience URL. -/
theorem exp_with_date_url (e : Experience) (d : Str) :
    (e.with_date d).url = e.url := rfl

/-- `with_summary` keeps the Experience URL. -/
theorem exp_with_summary_url (e : Experience) (s : Str) :
    (e.with_summary s).url = e.url := rfl

/-- A fresh Experience has the default (empty) URL. -/
theorem exp_new_url (c p : Str) : (Experience.new c p).url = Url.deflt := rfl

/-- The Education builders do not touch the URL (projection lemmas). -/
theorem edu_with_study_type_url (e : Education) (s : Str) :
    (e.with_study_type s).url = e.url := rfl

/-- `with_date` keeps the Education URL. -/
theorem edu_with_date_url (e : Education) (d : Str) :
    (e.with_date d).url = e.url := rfl

/-- `with_score` keeps the Education URL. -/
theorem edu_with_score_url (e : Education) (s : Str) :
    (e.with_score s).url = e.url := rfl

/-- `with_summary` keeps the Education URL. -/
theorem edu_with_summary_url (e : Education) (s : Str) :
    (e.with_summary s).url = e.url := rfl

/-- A fresh Education has the default (empty) URL. -/
theorem edu_new_url (i a : Str) : (Education.new i a).url = Url.deflt := rfl

/-- The Project builders other than `with_url` do not touch the URL. -/
theorem proj_with_description_url (p : Project) (d : Str) :
    (p.with_description d).url = p.url := rfl

/-- `with_summary` keeps the Project URL. -/
theorem proj_with_summary_url (p : Project) (s : Str) :
    (p.with_summary s).url = p.url := rfl

/-- `with_keywords` keeps the Project URL. -/
theorem proj_with_keywords_url (p : Project) (k : List Str) :
    (p.with_keywords k).url = p.url := rfl

/-- A fresh Project has the default (empty) URL. -/
theorem proj_new_url (n : Str) : (Project.new n).url = Url.deflt := rfl

/-- The converted work item's URL is the verbatim input URL (empty when
absent). -/
theorem conv_v1_work_url (w : JsonResumeWork) :
    (conv_v1_work w).url
      = (match w.url with
         | some u => Url.new u
         | none => Url.deflt) := by
  unfold conv_v1_work
  dsimp only
  cases w.location <;> cases w.url <;>
    simp only [apply_ite Experience.url, exp_with_location_url,
      exp_with_date_url, exp_with_summary_url, exp_new_url, ite_self] <;>
    rfl

/-- A converted work item validates exactly when its input URL is empty,
absent or well-formed. -/
theorem conv_v1_work_ok (w : JsonResumeWork) :
    Experience.validate_ok (conv_v1_work w) = opt_url_ok w.url := by
  simp only [Experience.validate_ok, Url.validate_ok, conv_v1_work_url]
  cases w.url <;> rfl

/-- The converted profile item's URL is the verbatim input URL. -/
theorem conv_v1_profile_ok (p : JsonResumeProfile) :
    Profile.validate_ok (conv_v1_profile p) = opt_url_ok p.url := by
  unfold conv_v1_profile
  cases p.url <;> rfl

/-- The converted project item's URL is the verbatim input URL. -/
theorem conv_v1_project_url (p : JsonResumeProject) :
    (conv_v1_project p).url
      = (match p.url with
         | some u => Url.new u
         | none => Url.deflt) := by
  unfold conv_v1_project
  dsimp only
  cases p.description <;> cases p.keywords <;> cases p.url <;>
    simp only [apply_ite Project.url, proj_with_description_url,
      proj_with_summary_url, proj_with_keywords_url, proj_new_url,
      ite_self] <;>
    rfl

/-- A converted project item validates exactly when its input URL is
harmless. -/
theorem conv_v1_project_ok (p : JsonResumeProject) :
    Project.validate_ok (conv_v1_project p) = opt_url_ok p.url := by
  simp only [Project.validate_ok, Url.validate_ok, conv_v1_project_url]
  cases p.url <;> rfl

/-- A converted certificate validates exactly when its input URL is
harmless. -/
theorem conv_v1_certificate_ok (c : JsonResumeCertificate) :
    Certification.validate_ok (conv_v1_certificate c) = opt_url_ok c.url := by
  unfold conv_v1_certificate
  cases c.date <;> cases c.url <;> rfl

/-- Converted education items always validate: the adapter never sets their
URL. -/
theorem conv_v1_education_ok (e : JsonResumeEducation) :
    Education.validate_ok (conv_v1_education e) = true := by
  unfold conv_v1_education
  dsimp only
  simp only [Education.validate_ok, Url.validate_ok]
  cases e.study_type <;> cases e.score <;> cases e.courses <;>
    simp only [apply_ite Education.url, edu_with_study_type_url,
      edu_with_date_url, edu_with_score_url, edu_with_summary_url,
      edu_new_url, ite_self] <;>
    rfl

/-- Converted skills always validate: the v1 level string becomes the
description, and the numeric level stays at its default 1. -/
theorem conv_v1_skill_ok (s : JsonResumeSkill) :
    Skill.validate_ok (conv_v1_skill s) = true := by
  unfold conv_v1_skill
  cases s.level <;> cases s.keywords <;> rfl

/-- Converted languages always validate: `with_level` clamps to at most 5. -/
theorem conv_v1_language_ok (l : JsonResumeLanguage) :
    Language.validate_ok (conv_v1_language l) = true := by
  unfold conv_v1_language
  cases l.fluency with
  | none => rfl
  | some f =>
      simp only [Language.validate_ok, Language.with_level,
        Language.with_description, clamp_level, decide_eq_true_eq]
      exact Nat.min_le_right _ _

/-- Converted awards always validate: the v1 adapter never sets their URL. -/
theorem conv_v1_award_ok (a : JsonResumeAward) :
    Award.validate_ok (conv_v1_award a) = true := by
  unfold conv_v1_award
  cases a.awarder <;> cases a.date <;> rfl

/-- The summary section built by the v1 adapter always validates. -/
theorem conv_v1_summary_ok (o : Option JsonResumeBasics) :
    SummarySection.validate_ok (conv_v1_summary o) = true := by
  cases o with
  | none => rfl
  | some b =>
      unfold conv_v1_summary
      dsimp only
      cases b.summary <;> rfl

/-- The basics region validates exactly when the input e-mail and basics URL
are harmless. -/
theorem conv_v1_basics_ok (o : Option JsonResumeBasics) :
    Basics.validate_ok (conv_v1_basics o)
      = (match o with
         | none => true
         | some b =>
             okB (validate_optional_email (b.email.getD []))
               && opt_url_ok b.url) := by
  cases o with
  | none => rfl
  | some b =>
      unfold conv_v1_basics
      dsimp only
      cases b.location <;>
        simp [Basics.validate_ok, Url.validate_ok, Picture.validate_ok,
          PictureEffects.validate_ok, Url.new, opt_url_ok, Bool.and_true]

/-- The work section validates exactly when every input work URL is
harmless. -/
theorem conv_v1_work_section_ok (o : Option (List JsonResumeWork)) :
    Section.validate_ok Experience.validate_ok (conv_v1_work_section o)
      = (match o with
         | none => true
         | some ws => ws.all (fun w => opt_url_ok w.url)) := by
  cases o with
  | none => rfl
  | some ws =>
      simp only [conv_v1_work_section, Section.validate_ok, all_map_eq]
      rw [all_ext _ _ conv_v1_work_ok]
      rfl

/-- The profiles section validates exactly when every input profile URL is
harmless. -/
theorem conv_v1_profiles_ok (o : Option JsonResumeBasics) :
    Section.validate_ok Profile.validate_ok (conv_v1_profiles o)
      = (match o with
         | none => true
         | some b =>
             match b.profiles with
             | none => true
             | some ps => ps.all (fun p => opt_url_ok p.url)) := by
  cases o with
  | none => rfl
  | some b =>
      unfold conv_v1_profiles
      dsimp only
      cases b.profiles with
      | none => rfl
      | some ps =>
          simp only [Section.validate_ok, all_map_eq]
          rw [all_ext _ _ conv_v1_profile_ok]
          rfl

/-- The projects section validates exactly when every input project URL is
harmless. -/
theorem conv_v1_projects_section_ok (o : Option (List JsonResumeProject)) :
    Section.validate_ok Project.validate_ok (conv_v1_projects_section o)
      = (match o with
         | none => true
         | some ps => ps.all (fun p => opt_url_ok p.url)) := by
  cases o with
  | none => rfl
  | some ps =>
      simp only [conv_v1_projects_section, Section.validate_ok, all_map_eq]
      rw [all_ext _ _ conv_v1_project_ok]
      rfl

/-- The certifications section validates exactly when every input
certificate URL is harmless. -/
theorem conv_v1_certificates_section_ok
    (o : Option (List JsonResumeCertificate)) :
    Section.validate_ok Certification.validate_ok
        (conv_v1_certificates_section o)
      = (match o with
         | none => true
         | some cs => cs.all (fun c => opt_url_ok c.url)) := by
  cases o with
  | none => rfl
  | some cs =>
      simp only [conv_v1_certificates_section, Section.validate_ok, all_map_eq]
      rw [all_ext _ _ conv_v1_certificate_ok]
      rfl

/-- The education section always validates. -/
theorem conv_v1_education_section_ok (o : Option (List JsonResumeEducation)) :
    Section.validate_ok Education.validate_ok (conv_v1_education_section o)
      = true := by
  cases o with
  | none => rfl
  | some es =>
      simp only [conv_v1_education_section, Section.validate_ok, all_map_eq]
      rw [all_ext _ _ conv_v1_education_ok, all_true]
      rfl

/-- The skills section always validates. -/
theorem conv_v1_skills_section_ok (o : Option (List JsonResumeSkill)) :
    Section.validate_ok Skill.validate_ok (conv_v1_skills_section o)
      = true := by
  cases o with
  | none => rfl
  | some ss =>
      simp only [conv_v1_skills_section, Section.validate_ok, all_map_eq]
      rw [all_ext _ _ conv_v1_skill_ok, all_true]
      rfl

/-- The languages section always validates. -/
theorem conv_v1_languages_section_ok (o : Option (List JsonResumeLanguage)) :
    Section.validate_ok Language.validate_ok (conv_v1_languages_section o)
      = true := by
  cases o with
  | none => rfl
  | some ls =>
      simp only [conv_v1_languages_section, Section.validate_ok, all_map_eq]
      rw [all_ext _ _ conv_v1_language_ok, all_true]
      rfl

/-- The awards section always validates. -/
theorem conv_v1_awards_section_ok (o : Option (List JsonResumeAward)) :
    Section.validate_ok Award.validate_ok (conv_v1_awards_section o)
      = true := by
  cases o with
  | none => rfl
  | some as_ =>
      simp only [conv_v1_awards_section, Section.validate_ok, all_map_eq]
      rw [all_ext _ _ conv_v1_award_ok, all_true]
      rfl

/-- The volunteer section always validates (only organization and position
are converted). -/
theorem conv_v1_volunteer_section_ok (o : Option (List JsonResumeVolunteer)) :
    Section.validate_ok Volunteer.validate_ok (conv_v1_volunteer_section o)
      = true := by
  cases o with
  | none => rfl
  | some vs =>
      simp only [conv_v1_volunteer_section, Section.validate_ok, all_map_eq]
      rw [all_ext (fun v => Volunteer.validate_ok (conv_v1_volunteer v))
        (fun _ => true) (fun v => rfl), all_true]
      rfl

/-- The publications section always validates. -/
theorem conv_v1_publications_section_ok
    (o : Option (List JsonResumePublication)) :
    Section.validate_ok Publication.validate_ok
        (conv_v1_publications_section o) = true := by
  cases o with
  | none => rfl
  | some ps =>
      simp only [conv_v1_publications_section, Section.validate_ok, all_map_eq]
      rw [all_ext (fun p => Publication.validate_ok (conv_v1_publication p))
        (fun _ => true) (fun p => rfl), all_true]
      rfl

/-- The interests section always validates. -/
theorem conv_v1_interests_section_ok (o : Option (List JsonResumeInterest)) :
    Section.validate_ok Interest.validate_ok (conv_v1_interests_section o)
      = true := by
  cases o with
  | none => rfl
  | some is_ =>
      simp only [conv_v1_interests_section, Section.validate_ok, all_map_eq]
      rw [all_ext (fun i => Interest.validate_ok (conv_v1_interest i))
        (fun _ => true) (fun i => rfl), all_true]
      rfl

/-- The references section always validates. -/
theorem conv_v1_references_section_ok
    (o : Option (List JsonResumeReference)) :
    Section.validate_ok Reference.validate_ok (conv_v1_references_section o)
      = true := by
  cases o with
  | none => rfl
  | some rs =>
      simp only [conv_v1_references_section, Section.validate_ok, all_map_eq]
      rw [all_ext (fun r => Reference.validate_ok (conv_v1_reference r))
        (fun _ => true) (fun r => rfl), all_true]
      rfl

/-- The default metadata validates (its theme colours are well-formed). -/
theorem metadata_deflt_ok : Metadata.validate_ok Metadata.deflt = true := by
  decide

/-- C1 amended, for the foreign JSON v1 adapter: `convert` always succeeds,
and the canonical validator accepts the converted document IF AND ONLY IF
the input's e-mail and every URL-valued input field (basics url, profile
urls, work urls, project urls, certificate urls) is absent, empty or
well-formed — the adapter copies those strings verbatim, so the claimed
unconditional invariant fails (see the counterexample). -/
theorem c1_amended_v1_validate_iff (d : JsonResume) :
    Except.map ResumeData.validate_ok (jsonresume_convert d)
      = Except.ok (v1_input_ok d) := by
  simp only [jsonresume_convert, Except.map, Except.ok.injEq]
  simp only [ResumeData.validate_ok, Sections.validate_ok,
    conv_v1_basics_ok, conv_v1_summary_ok, conv_v1_work_section_ok,
    conv_v1_education_section_ok, conv_v1_skills_section_ok,
    conv_v1_projects_section_ok, conv_v1_profiles_ok,
    conv_v1_awards_section_ok, conv_v1_certificates_section_ok,
    conv_v1_publications_section_ok, conv_v1_languages_section_ok,
    conv_v1_interests_section_ok, conv_v1_volunteer_section_ok,
    conv_v1_references_section_ok, metadata_deflt_ok,
    v1_input_ok, Bool.and_true, Bool.true_and]
  cases d.basics with
  | none =>
      simp only [Sections.deflt, List.all_nil, Bool.and_true, Bool.true_and]
  | some b =>
      simp only [Sections.deflt, List.all_nil, Bool.and_true, Bool.true_and]
      simp [Bool.and_assoc, Bool.and_comm, Bool.and_left_comm]

/-- C1 counterexample: the v1 adapter accepts the input whose basics carry
`email = "bad"` (read and serde validation succeed on the byte string
`{"basics":{"email":"bad"}}`, and `convert` returns `Ok`), yet the
canonical validator REJECTS the converted document, because the adapter
copies the e-mail verbatim and `basics.email` fails the e-mail rule. -/
theorem c1_counterexample :
    ((jsonresume_convert v1_bad_email_input).toOption.map
        ResumeData.validate_ok)
      = some false := rfl

end Rustume
